import Mathlib

/-!
# The session-description serializer of `sdp-jingle-json` (`lib/tosdp.js`)

A shallow embedding of the three exported functions `toCandidateSDP`,
`toMediaSDP` and `toSessionSDP` and of the `senders` lookup object, followed by
theorems about them.

Conventions of the embedding.

* A property of a JavaScript object that the serializer reads as a scalar is a
  `JSValue`; an absent property is `JSValue.undefined`.
* A property that holds an array of objects is an `Option (List _)`: `none` is
  the absent property. Arrays that the code dereferences without a guard
  (`group.contents`, `ssrcGroup.sources`, `ssrc.parameters`) and the
  description of a content are required fields of `Content`; `RawContent`
  drops that requirement for `toMediaSDP`, so that its faults can be stated.
* The local array `sdp` is a `List JSValue`; `sdp.push(x)` is `push sdp x`,
  `xs.forEach(f)` is a left fold of the loop body over `xs`.
* A `TypeError` raised by the code is the `Except.error` result.
* `Date.now()` reads a clock that is passed explicitly.
-/

namespace Tosdp

/-! ## JavaScript values -/

/-- A JavaScript value as far as the serializer can tell values apart.
`num` holds the integer-valued numbers below `10^21` in magnitude (those whose
`ToString` is their decimal numeral). `obj text` is an object or function
value; `text` is what `ToString` returns for it. -/
inductive JSValue where
  | undefined
  | null
  | bool (b : Bool)
  | num (n : Int)
  | str (s : String)
  | obj (text : String)
  deriving DecidableEq

/-- The abstract operation `ToString`, as applied by `+` with a string operand. -/
def toStr : JSValue → String
  | .undefined => "undefined"
  | .null => "null"
  | .bool true => "true"
  | .bool false => "false"
  | .num n => toString n
  | .str s => s
  | .obj text => text

/-- The abstract operation `ToBoolean`: the test of `if`, `?:`, `&&` and `||`. -/
def truthy : JSValue → Bool
  | .undefined => false
  | .null => false
  | .bool b => b
  | .num n => n != 0
  | .str s => s != ""
  | .obj _ => true

/-- The expression `a || b`. -/
def orElse (a b : JSValue) : JSValue := if truthy a then a else b

/-- The expression `a && b`. -/
def andAlso (a b : JSValue) : JSValue := if truthy a then b else a

/-- The expression `v != '1'` (loose inequality with the string `'1'`): a string
is compared as a string, a number or boolean after `ToNumber` of both sides. -/
def looseNeOne : JSValue → Bool
  | .undefined => true
  | .null => true
  | .bool b => !b
  | .num n => n != 1
  | .str s => s != "1"
  | .obj text => text != "1"

/-- How `Array.prototype.join` renders one element: `undefined` and `null`
give the empty string, every other value its `ToString`. -/
def joinElem : JSValue → String
  | .undefined => ""
  | .null => ""
  | v => toStr v

/-- The method `Array.prototype.join` with separator `sep`. -/
def join (sep : String) : List JSValue → String
  | [] => ""
  | [v] => joinElem v
  | v :: w :: rest => joinElem v ++ sep ++ join sep (w :: rest)

/-- The method `Array.prototype.push`, returning the extended array. -/
def push (sdp : List JSValue) (v : JSValue) : List JSValue := sdp ++ [v]

/-- A fault raised by the JavaScript engine. -/
inductive JSError where
  | typeError (message : String)
  deriving DecidableEq

/-! ## The `senders` lookup object (lines 1-10) -/

/-- The own properties of the object literal `senders`, in source order. -/
def senders : List (String × String) :=
  [("initiator", "sendonly"),
   ("responder", "recvonly"),
   ("both", "sendrecv"),
   ("none", "inactive"),
   ("sendonly", "initator"),
   ("recvonly", "responder"),
   ("sendrecv", "both"),
   ("inactive", "none")]

/-- The text `ToString` gives for a built-in function called `name`. -/
def nativeFunction (name : String) : JSValue :=
  .obj ("function " ++ name ++ "() \x7b [native code] \x7d")

/-- The properties every object literal inherits from `Object.prototype`:
property reads on `senders` fall through to them when `senders` has no own
property of that name. -/
def objectPrototype : List (String × JSValue) :=
  [("constructor", nativeFunction "Object"),
   ("toString", nativeFunction "toString"),
   ("toLocaleString", nativeFunction "toLocaleString"),
   ("valueOf", nativeFunction "valueOf"),
   ("hasOwnProperty", nativeFunction "hasOwnProperty"),
   ("isPrototypeOf", nativeFunction "isPrototypeOf"),
   ("propertyIsEnumerable", nativeFunction "propertyIsEnumerable"),
   ("__defineGetter__", nativeFunction "__defineGetter__"),
   ("__defineSetter__", nativeFunction "__defineSetter__"),
   ("__lookupGetter__", nativeFunction "__lookupGetter__"),
   ("__lookupSetter__", nativeFunction "__lookupSetter__"),
   ("__proto__", .obj "[object Object]")]

/-- The expression `senders[key]`: the key is converted with `ToString`, an own
property wins, then an inherited one, and a name found nowhere reads as
`undefined`. -/
def sendersGet (key : JSValue) : JSValue :=
  match senders.lookup (toStr key) with
  | some token => .str token
  | none =>
    match objectPrototype.lookup (toStr key) with
    | some inherited => inherited
    | none => .undefined

/-! ## Input structures -/

/-- An ICE candidate, the argument of `toCandidateSDP`. -/
structure Candidate where
  foundation : JSValue := .undefined
  component : JSValue := .undefined
  protocol : JSValue := .undefined
  priority : JSValue := .undefined
  ip : JSValue := .undefined
  port : JSValue := .undefined
  type : JSValue := .undefined
  relAddr : JSValue := .undefined
  relPort : JSValue := .undefined
  generation : JSValue := .undefined

/-- An element of `transport.fingerprints`. -/
structure Fingerprint where
  hash : JSValue := .undefined
  value : JSValue := .undefined

/-- The property `content.transport`. -/
structure Transport where
  ufrag : JSValue := .undefined
  pwd : JSValue := .undefined
  setup : JSValue := .undefined
  fingerprints : Option (List Fingerprint) := none
  candidates : Option (List Candidate) := none

/-- An element of `payload.parameters` or of `ssrc.parameters`. -/
structure Parameter where
  key : JSValue := .undefined
  value : JSValue := .undefined

/-- An element of `payload.feedback` or of `desc.feedback`. -/
structure Feedback where
  type : JSValue := .undefined
  subtype : JSValue := .undefined
  value : JSValue := .undefined

/-- An element of `desc.payloads`. -/
structure Payload where
  id : JSValue := .undefined
  name : JSValue := .undefined
  clockrate : JSValue := .undefined
  channels : JSValue := .undefined
  parameters : Option (List Parameter) := none
  feedback : Option (List Feedback) := none

/-- An element of `desc.encryption`. -/
structure Crypto where
  tag : JSValue := .undefined
  cipherSuite : JSValue := .undefined
  keyParams : JSValue := .undefined
  sessionParams : JSValue := .undefined

/-- An element of `desc.headerExtensions`. -/
structure HeaderExtension where
  id : JSValue := .undefined
  uri : JSValue := .undefined
  senders : JSValue := .undefined

/-- An element of `desc.sourceGroups`. -/
structure SourceGroup where
  semantics : JSValue := .undefined
  sources : List JSValue := []

/-- An element of `desc.sources`. -/
structure Source where
  ssrc : JSValue := .undefined
  parameters : List Parameter := []

/-- The property `content.description`. -/
structure Description where
  media : JSValue := .undefined
  payloads : Option (List Payload) := none
  encryption : Option (List Crypto) := none
  mux : JSValue := .undefined
  feedback : Option (List Feedback) := none
  headerExtensions : Option (List HeaderExtension) := none
  sourceGroups : Option (List SourceGroup) := none
  sources : Option (List Source) := none
  ssrc : JSValue := .undefined

/-- An element of `session.contents`, the argument of `toMediaSDP`. -/
structure Content where
  name : JSValue := .undefined
  senders : JSValue := .undefined
  description : Description := {}
  transport : Option Transport := none

/-- An element of `session.groups`. -/
structure Group where
  semantics : JSValue := .undefined
  contents : List JSValue := []

/-- The first argument of `toSessionSDP`. -/
structure Session where
  sid : JSValue := .undefined
  groups : Option (List Group) := none
  contents : Option (List Content) := none

/-! ## `toCandidateSDP` (lines 148-174) -/

/-- The function `exports.toCandidateSDP`. -/
def toCandidateSDP (candidate : Candidate) : String :=
  let sdp : List JSValue := []
  let sdp := push sdp candidate.foundation
  let sdp := push sdp candidate.component
  let sdp := push sdp candidate.protocol
  let sdp := push sdp candidate.priority
  let sdp := push sdp candidate.ip
  let sdp := push sdp candidate.port
  let type := candidate.type
  let sdp := push sdp (.str "typ")
  let sdp := push sdp type
  let sdp :=
    if type = .str "srflx" ∨ type = .str "prflx" ∨ type = .str "relay" then
      if truthy (andAlso candidate.relAddr candidate.relPort) then
        let sdp := push sdp (.str "raddr")
        let sdp := push sdp candidate.relAddr
        let sdp := push sdp (.str "rport")
        push sdp candidate.relPort
      else sdp
    else sdp
  let sdp := push sdp (.str "generation")
  let sdp := push sdp (orElse candidate.generation (.str "0"))
  "a=candidate:" ++ join " " sdp

/-! ## `toMediaSDP` (lines 34-146) -/

/-- The m-line tokens: the local array `mline` when it is joined (lines 42-51). -/
def mlineTokens (desc : Description) (fingerprints : List Fingerprint) : List JSValue :=
  let payloads := desc.payloads.getD []
  let mline : List JSValue := [desc.media, .str "1"]
  let mline :=
    if (match desc.encryption with
        | some encryption => decide (encryption.length > 0)
        | none => false) || decide (fingerprints.length > 0) then
      push mline (.str "RTP/SAVPF")
    else
      push mline (.str "RTP/AVPF")
  payloads.foldl (fun mline payload => push mline payload.id) mline

/-- The value pushed for one fingerprint (line 70). -/
def fingerprintLine (fingerprint : Fingerprint) : JSValue :=
  .str ("a=fingerprint:" ++ toStr fingerprint.hash ++ " " ++ toStr fingerprint.value)

/-- The sender-direction value pushed at line 74. -/
def directionLine (content : Content) : JSValue :=
  .str ("a=" ++ toStr (orElse (sendersGet content.senders) (.str "sendrecv")))

/-- The value pushed for one encryption entry (line 83). -/
def cryptoLine (crypto : Crypto) : JSValue :=
  .str ("a=crypto:" ++ toStr crypto.tag ++ " " ++ toStr crypto.cipherSuite ++ " "
    ++ toStr crypto.keyParams
    ++ (if truthy crypto.sessionParams then " " ++ toStr crypto.sessionParams else ""))

/-- The value pushed for a payload at line 91 (built at lines 87-90). -/
def rtpmapLine (payload : Payload) : JSValue :=
  let rtpmap := "a=rtpmap:" ++ toStr payload.id ++ " " ++ toStr payload.name ++ "/"
    ++ toStr payload.clockrate
  let rtpmap :=
    if truthy payload.channels && looseNeOne payload.channels then
      rtpmap ++ "/" ++ toStr payload.channels
    else rtpmap
  .str rtpmap

/-- The value pushed onto `fmtp` for one parameter (line 96). -/
def fmtpToken (param : Parameter) : JSValue :=
  .str ((if truthy param.key then toStr param.key ++ "=" else "") ++ toStr param.value)

/-- The value pushed for the parameters of a payload (lines 94-98). -/
def fmtpLine (payload : Payload) (parameters : List Parameter) : JSValue :=
  let fmtp : List JSValue := [.str ("a=fmtp:" ++ toStr payload.id)]
  let fmtp := parameters.foldl (fun fmtp param => push fmtp (fmtpToken param)) fmtp
  .str (join " " fmtp)

/-- The value pushed for one feedback entry of a payload (lines 103-107). In
line 104 the operator `+` binds tighter than `?:`, so the whole concatenation
is the condition and the branches are `fb.value` and `'0'`. -/
def payloadFeedbackLine (payload : Payload) (fb : Feedback) : JSValue :=
  if fb.type = .str "trr-int" then
    if truthy (.str ("a=rtcp-fb:" ++ toStr payload.id ++ " trr-int " ++ toStr fb.value)) then
      fb.value
    else .str "0"
  else
    .str ("a=rtcp-fb:" ++ toStr payload.id ++ " " ++ toStr fb.type
      ++ (if truthy fb.subtype then " " ++ toStr fb.subtype else ""))

/-- The body of `payloads.forEach` at lines 86-110: the array after the pushes
for one payload. -/
def payloadStep (sdp : List JSValue) (payload : Payload) : List JSValue :=
  let sdp := push sdp (rtpmapLine payload)
  let sdp :=
    match payload.parameters with
    | some parameters =>
      if parameters.length ≠ 0 then push sdp (fmtpLine payload parameters) else sdp
    | none => sdp
  match payload.feedback with
  | some feedback => feedback.foldl (fun sdp fb => push sdp (payloadFeedbackLine payload fb)) sdp
  | none => sdp

/-- The value pushed for one description-level feedback entry (lines 114-118),
with the same operator precedence in line 115 as in line 104. -/
def descFeedbackLine (fb : Feedback) : JSValue :=
  if fb.type = .str "trr-int" then
    if truthy (.str ("a=rtcp-fb:* trr-int " ++ toStr fb.value)) then fb.value else .str "0"
  else
    .str ("a=rtcp-fb:* " ++ toStr fb.type
      ++ (if truthy fb.subtype then " " ++ toStr fb.subtype else ""))

/-- The value pushed for one header extension (line 124). -/
def extmapLine (hdr : HeaderExtension) : JSValue :=
  .str ("a=extmap:" ++ toStr hdr.id
    ++ (if truthy hdr.senders then "/" ++ toStr (sendersGet hdr.senders) else "")
    ++ " " ++ toStr hdr.uri)

/-- The value pushed for one ssrc group (line 129). -/
def ssrcGroupLine (ssrcGroup : SourceGroup) : JSValue :=
  .str ("a=ssrc-group:" ++ toStr ssrcGroup.semantics ++ " " ++ join " " ssrcGroup.sources)

/-- The value pushed for one parameter of a source (line 136). -/
def ssrcLine (desc : Description) (ssrc : Source) (param : Parameter) : JSValue :=
  .str ("a=ssrc:" ++ toStr (orElse ssrc.ssrc desc.ssrc) ++ " " ++ toStr param.key
    ++ (if truthy param.value then ":" ++ toStr param.value else ""))

/-- The local array `sdp` of `toMediaSDP` when line 145 is reached, or the
fault of line 140, where `transport.candidates` is read without a guard. -/
def toMediaSDPLines (content : Content) : Except JSError (List JSValue) :=
  let sdp : List JSValue := []
  let desc := content.description
  let transport := content.transport
  let payloads := desc.payloads.getD []
  let fingerprints : List Fingerprint :=
    match transport with
    | some transport => transport.fingerprints.getD []
    | none => []
  let sdp := push sdp (.str ("m=" ++ join " " (mlineTokens desc fingerprints)))
  let sdp := push sdp (.str "c=IN IP4 0.0.0.0")
  let sdp := push sdp (.str "a=rtcp:1 IN IP4 0.0.0.0")
  let sdp :=
    match transport with
    | some transport =>
      let sdp :=
        if truthy transport.ufrag then push sdp (.str ("a=ice-ufrag:" ++ toStr transport.ufrag))
        else sdp
      let sdp :=
        if truthy transport.pwd then push sdp (.str ("a=ice-pwd:" ++ toStr transport.pwd))
        else sdp
      let sdp :=
        if truthy transport.setup then push sdp (.str ("a=setup:" ++ toStr transport.setup))
        else sdp
      fingerprints.foldl (fun sdp fingerprint => push sdp (fingerprintLine fingerprint)) sdp
    | none => sdp
  let sdp := push sdp (directionLine content)
  let sdp := push sdp (.str ("a=mid:" ++ toStr content.name))
  let sdp := if truthy desc.mux then push sdp (.str "a=rtcp-mux") else sdp
  let encryption := desc.encryption.getD []
  let sdp := encryption.foldl (fun sdp crypto => push sdp (cryptoLine crypto)) sdp
  let sdp := payloads.foldl payloadStep sdp
  let sdp :=
    match desc.feedback with
    | some feedback => feedback.foldl (fun sdp fb => push sdp (descFeedbackLine fb)) sdp
    | none => sdp
  let hdrExts := desc.headerExtensions.getD []
  let sdp := hdrExts.foldl (fun sdp hdr => push sdp (extmapLine hdr)) sdp
  let ssrcGroups := desc.sourceGroups.getD []
  let sdp := ssrcGroups.foldl (fun sdp ssrcGroup => push sdp (ssrcGroupLine ssrcGroup)) sdp
  let ssrcs := desc.sources.getD []
  let sdp := ssrcs.foldl
    (fun sdp ssrc => ssrc.parameters.foldl (fun sdp param => push sdp (ssrcLine desc ssrc param)) sdp)
    sdp
  match transport with
  | none => .error (.typeError "Cannot read property \x27candidates\x27 of undefined")
  | some transport =>
    let candidates := transport.candidates.getD []
    .ok (candidates.foldl (fun sdp candidate => push sdp (.str (toCandidateSDP candidate))) sdp)

/-- The function `exports.toMediaSDP`: line 145 joins the array with CRLF. -/
def toMediaSDP (content : Content) : Except JSError String :=
  match toMediaSDPLines content with
  | .ok sdp => .ok (join "\r\n" sdp)
  | .error e => .error e

/-! ## `toSessionSDP` (lines 13-32) -/

/-- The successive readings of the system clock, in milliseconds: reading `0`
is what the next call of `Date.now()` returns. -/
abbrev Clock := Nat → Int

/-- The call `Date.now()`: the reading and the clock left for later calls. -/
def dateNow (clock : Clock) : JSValue × Clock :=
  (.num (clock 0), fun n => clock (n + 1))

/-- The expression `v || Date.now()`: the clock is read only when `v` is falsy. -/
def orElseNow (v : JSValue) (clock : Clock) : JSValue × Clock :=
  if truthy v then (v, clock) else dateNow clock

/-- The value pushed for one group (line 23). -/
def groupLine (group : Group) : JSValue :=
  .str ("a=group:" ++ toStr group.semantics ++ " " ++ join " " group.contents)

/-- The origin line of line 16; `sid` and `time` are the second and third
argument, `undefined` when the caller leaves them out. -/
def originLine (clock : Clock) (session : Session) (sid time : JSValue) : JSValue :=
  let sidPart := orElseNow (orElse sid session.sid) clock
  let timePart := orElseNow time sidPart.2
  .str ("o=- " ++ toStr sidPart.1 ++ " " ++ toStr timePart.1 ++ " IN IP4 0.0.0.0")

/-- The body of `contents.forEach` at lines 27-29. -/
def contentStep (sdp : List JSValue) (content : Content) : Except JSError (List JSValue) :=
  match toMediaSDP content with
  | .ok text => .ok (push sdp (.str text))
  | .error e => .error e

/-- The local array `sdp` of `toSessionSDP` when line 31 is reached, or the
fault of the first `toMediaSDP` call that raises one. -/
def toSessionSDPLines (clock : Clock) (session : Session) (sid time : JSValue) :
    Except JSError (List JSValue) :=
  let sdp : List JSValue :=
    [.str "v=0", originLine clock session sid time, .str "s=-", .str "t=0 0"]
  let groups := session.groups.getD []
  let sdp := groups.foldl (fun sdp group => push sdp (groupLine group)) sdp
  let contents := session.contents.getD []
  contents.foldlM contentStep sdp

/-- The function `exports.toSessionSDP`: line 31 joins the array with CRLF and
appends one more CRLF. -/
def toSessionSDP (clock : Clock) (session : Session) (sid time : JSValue) :
    Except JSError String :=
  match toSessionSDPLines clock session sid time with
  | .ok sdp => .ok (join "\r\n" sdp ++ "\r\n")
  | .error e => .error e

/-! ## The lines of a media section, described segment by segment -/

/-- The transport attribute lines: ice-ufrag, ice-pwd, setup, then the
fingerprints. -/
def transportLines (transport : Transport) : List JSValue :=
  (if truthy transport.ufrag then [.str ("a=ice-ufrag:" ++ toStr transport.ufrag)] else [])
  ++ (if truthy transport.pwd then [.str ("a=ice-pwd:" ++ toStr transport.pwd)] else [])
  ++ (if truthy transport.setup then [.str ("a=setup:" ++ toStr transport.setup)] else [])
  ++ (transport.fingerprints.getD []).map fingerprintLine

/-- The fmtp line of a payload: one line when the parameter list is non-empty. -/
def fmtpLines (payload : Payload) : List JSValue :=
  match payload.parameters with
  | some (param :: more) => [fmtpLine payload (param :: more)]
  | _ => []

/-- The lines of one payload: rtpmap, then fmtp, then one line per feedback
entry. -/
def payloadLines (payload : Payload) : List JSValue :=
  rtpmapLine payload
    :: (fmtpLines payload ++ (payload.feedback.getD []).map (payloadFeedbackLine payload))

/-- The lines of a media section in the order in which section 4.3 of the
specification lists them, for a content that has a transport. -/
def emissionOrder (content : Content) (transport : Transport) : List JSValue :=
  [.str ("m=" ++ join " "
      (mlineTokens content.description (transport.fingerprints.getD []))),
    .str "c=IN IP4 0.0.0.0",
    .str "a=rtcp:1 IN IP4 0.0.0.0"]
  ++ transportLines transport
  ++ [directionLine content, .str ("a=mid:" ++ toStr content.name)]
  ++ (if truthy content.description.mux then [.str "a=rtcp-mux"] else [])
  ++ (content.description.encryption.getD []).map cryptoLine
  ++ (content.description.payloads.getD []).flatMap payloadLines
  ++ (content.description.feedback.getD []).map descFeedbackLine
  ++ (content.description.headerExtensions.getD []).map extmapLine
  ++ (content.description.sourceGroups.getD []).map ssrcGroupLine
  ++ (content.description.sources.getD []).flatMap
      (fun ssrc => ssrc.parameters.map (ssrcLine content.description ssrc))
  ++ (transport.candidates.getD []).map (fun candidate => .str (toCandidateSDP candidate))

/-- The index of the sender-direction line in the array `sdp`: it follows the
three fixed lines and the transport attribute lines. -/
def directionIndex (content : Content) : Nat :=
  3 + match content.transport with
      | some transport => (transportLines transport).length
      | none => 0

/-- The media sections of a list of contents, in order: the text of each
`toMediaSDP` call, or the fault of the first call that raises one. -/
def mediaSections : List Content → Except JSError (List JSValue)
  | [] => .ok []
  | content :: more =>
    match toMediaSDP content with
    | .error e => .error e
    | .ok text =>
      match mediaSections more with
      | .error e => .error e
      | .ok sections => .ok (.str text :: sections)

/-! ## Statements of the specification that the code is compared with -/

/-- A property is present when it holds a value: it is neither `undefined`
nor `null`. -/
def isPresent (v : JSValue) : Bool := v != .undefined && v != .null

/-- The tokens of a candidate line as the specification describes them: the
related-address group and the generation default are decided by presence. -/
def candidateTokensByPresence (candidate : Candidate) : List JSValue :=
  [candidate.foundation, candidate.component, candidate.protocol, candidate.priority,
    candidate.ip, candidate.port, .str "typ", candidate.type]
  ++ (if (candidate.type = .str "srflx" ∨ candidate.type = .str "prflx"
          ∨ candidate.type = .str "relay")
        ∧ isPresent candidate.relAddr = true ∧ isPresent candidate.relPort = true then
      [.str "raddr", candidate.relAddr, .str "rport", candidate.relPort]
    else [])
  ++ [.str "generation",
      if isPresent candidate.generation = true then candidate.generation else .str "0"]

/-- The tokens of a candidate line with presence replaced by truthiness: a
related field or a generation that is `0`, the empty string, `false`, `null` or
`undefined` counts as missing. -/
def candidateTokensByTruth (candidate : Candidate) : List JSValue :=
  [candidate.foundation, candidate.component, candidate.protocol, candidate.priority,
    candidate.ip, candidate.port, .str "typ", candidate.type]
  ++ (if (candidate.type = .str "srflx" ∨ candidate.type = .str "prflx"
          ∨ candidate.type = .str "relay")
        ∧ truthy candidate.relAddr = true ∧ truthy candidate.relPort = true then
      [.str "raddr", candidate.relAddr, .str "rport", candidate.relPort]
    else [])
  ++ [.str "generation",
      if truthy candidate.generation = true then candidate.generation else .str "0"]

/-- The origin line as the specification describes it for a frozen clock value
`now`: each override is used whenever it is present. -/
def originByPresence (now : Int) (session : Session) (sid time : JSValue) : JSValue :=
  let s :=
    if isPresent sid = true then sid
    else if isPresent session.sid = true then session.sid
    else .num now
  let t := if isPresent time = true then time else .num now
  .str ("o=- " ++ toStr s ++ " " ++ toStr t ++ " IN IP4 0.0.0.0")

/-- The origin line with presence replaced by truthiness. The time falls back
to the first clock reading, or to the second one when the session id has
already consumed the first. -/
def originByTruth (clock : Clock) (session : Session) (sid time : JSValue) : JSValue :=
  let s :=
    if truthy sid = true then sid
    else if truthy session.sid = true then session.sid
    else .num (clock 0)
  let t :=
    if truthy time = true then time
    else if truthy sid = true ∨ truthy session.sid = true then .num (clock 0)
    else .num (clock 1)
  .str ("o=- " ++ toStr s ++ " " ++ toStr t ++ " IN IP4 0.0.0.0")

/-! ## Concrete inputs -/

/-- The payload `{id: 111, name: "opus", clockrate: 48000, channels: 2}`. -/
def opus : Payload :=
  { id := .num 111, name := .str "opus", clockrate := .num 48000, channels := .num 2 }

/-- One audio content, senders `"both"`, the opus payload, no transport. -/
def audioNoTransport : Content :=
  { name := .str "audio", senders := .str "both",
    description := { media := .str "audio", payloads := some [opus] } }

/-- The same content with an empty transport object `{}`. -/
def audioContent : Content := { audioNoTransport with transport := some {} }

/-- The audio content whose payload carries the feedback entry
`{type: "trr-int", value: 0}`. -/
def trrIntContent : Content :=
  { audioContent with
    description :=
      { media := .str "audio",
        payloads := some [{ opus with feedback := some [{ type := .str "trr-int", value := .num 0 }] }] } }

/-- The audio content with senders `"recvonly"`. -/
def recvonlyContent : Content := { audioContent with senders := .str "recvonly" }

/-- The audio content with senders `"constructor"`, a string that is no key of
the role table. -/
def constructorContent : Content := { audioContent with senders := .str "constructor" }

/-- The audio content with the header extension
`{id: 1, uri: "urn:x", senders: "foo"}`. -/
def extmapFooContent : Content :=
  { audioContent with
    description :=
      { media := .str "audio", payloads := some [opus],
        headerExtensions := some [{ id := .num 1, uri := .str "urn:x", senders := .str "foo" }] } }

/-- A transport with every attribute, one fingerprint and one host candidate. -/
def fullTransport : Transport :=
  { ufrag := .str "u", pwd := .str "p", setup := .str "actpass",
    fingerprints := some [{ hash := .str "sha-256", value := .str "AA:BB" }],
    candidates := some
      [{ foundation := .str "1", component := .num 1, protocol := .str "udp",
         priority := .num 2130706431, ip := .str "10.0.0.1", port := .num 54321,
         type := .str "host" }] }

/-- A content that exercises every segment of a media section. -/
def fullContent : Content :=
  { name := .str "video", senders := .str "initiator",
    description :=
      { media := .str "video",
        payloads := some
          [{ id := .num 100, name := .str "VP8", clockrate := .num 90000,
             parameters := some [{ key := .str "max-fs", value := .num 12288 }, { value := .str "x" }],
             feedback := some [{ type := .str "nack", subtype := .str "pli" }, { type := .str "ccm" }] },
           { id := .num 116, name := .str "red", clockrate := .num 90000 }],
        encryption := some
          [{ tag := .num 1, cipherSuite := .str "AES_CM_128_HMAC_SHA1_80", keyParams := .str "inline:k" }],
        mux := .bool true,
        feedback := some [{ type := .str "goog-remb" }],
        headerExtensions := some [{ id := .num 2, uri := .str "urn:toffset" }],
        sourceGroups := some [{ semantics := .str "FID", sources := [.num 1, .num 2] }],
        sources := some
          [{ ssrc := .num 1,
             parameters := [{ key := .str "cname", value := .str "c" }, { key := .str "x" }] }] },
    transport := some fullTransport }

/-- The candidate of the specification's concrete scenario. -/
def relayCandidate : Candidate :=
  { foundation := .str "1", component := .num 1, protocol := .str "udp",
    priority := .num 2130706431, ip := .str "10.0.0.1", port := .num 54321,
    type := .str "relay", relAddr := .str "1.2.3.4", relPort := .num 9000 }

/-- The same candidate with the related port `0`. -/
def relayZeroPort : Candidate := { relayCandidate with relPort := .num 0 }

/-- A session with the session id `"abc"`, one group and the audio content. -/
def abcSession : Session :=
  { sid := .str "abc",
    groups := some [{ semantics := .str "BUNDLE", contents := [.str "audio"] }],
    contents := some [audioContent] }

/-- A clock that is frozen at the reading `1234`. -/
def frozenClock : Clock := fun _ => 1234

/-! ## A content whose properties may be missing

`Content` takes the description of a content, the `sources` of a source group
and the `parameters` of a source as required. The structures below drop that:
every property of every object may be absent, so the faults that the
unguarded reads of lines 39, 129 and 134 raise can be stated. A list that is
present holds objects of its element type. -/

/-- An element of `desc.sourceGroups` whose property `sources` may be absent. -/
structure RawSourceGroup where
  semantics : JSValue := .undefined
  sources : Option (List JSValue) := none

/-- An element of `desc.sources` whose property `parameters` may be absent. -/
structure RawSource where
  ssrc : JSValue := .undefined
  parameters : Option (List Parameter) := none

/-- The property `content.description`, with source groups and sources whose
lists may be absent. -/
structure RawDescription where
  media : JSValue := .undefined
  payloads : Option (List Payload) := none
  encryption : Option (List Crypto) := none
  mux : JSValue := .undefined
  feedback : Option (List Feedback) := none
  headerExtensions : Option (List HeaderExtension) := none
  sourceGroups : Option (List RawSourceGroup) := none
  sources : Option (List RawSource) := none
  ssrc : JSValue := .undefined

/-- The argument of `toMediaSDP` as a caller may pass it: unlike `Content`, the
property `description` may be absent. -/
structure RawContent where
  name : JSValue := .undefined
  senders : JSValue := .undefined
  description : Option RawDescription := none
  transport : Option Transport := none

/-- The source group with an absent `sources` read as the empty list. -/
def RawSourceGroup.toSourceGroup (ssrcGroup : RawSourceGroup) : SourceGroup :=
  { semantics := ssrcGroup.semantics, sources := ssrcGroup.sources.getD [] }

/-- The source with an absent `parameters` read as the empty list. -/
def RawSource.toSource (ssrc : RawSource) : Source :=
  { ssrc := ssrc.ssrc, parameters := ssrc.parameters.getD [] }

/-- The description with the same properties, its source groups and sources
converted one by one. -/
def RawDescription.toDescription (desc : RawDescription) : Description :=
  { media := desc.media, payloads := desc.payloads, encryption := desc.encryption,
    mux := desc.mux, feedback := desc.feedback, headerExtensions := desc.headerExtensions,
    sourceGroups := desc.sourceGroups.map (List.map RawSourceGroup.toSourceGroup),
    sources := desc.sources.map (List.map RawSource.toSource),
    ssrc := desc.ssrc }

/-- The content with the same name, senders and transport and the description
`desc`. -/
def RawContent.toContent (content : RawContent) (desc : RawDescription) : Content :=
  { name := content.name, senders := content.senders, description := desc.toDescription,
    transport := content.transport }

/-- The local array `sdp` of `toMediaSDP` when line 127 is reached (lines
35-125): none of these lines reads a property of an absent object. -/
def rawLinesBeforeSources (content : RawContent) (desc : RawDescription) : List JSValue :=
  let sdp : List JSValue := []
  let transport := content.transport
  let payloads := desc.payloads.getD []
  let fingerprints : List Fingerprint :=
    match transport with
    | some transport => transport.fingerprints.getD []
    | none => []
  let sdp := push sdp (.str ("m=" ++ join " " (mlineTokens desc.toDescription fingerprints)))
  let sdp := push sdp (.str "c=IN IP4 0.0.0.0")
  let sdp := push sdp (.str "a=rtcp:1 IN IP4 0.0.0.0")
  let sdp :=
    match transport with
    | some transport =>
      let sdp :=
        if truthy transport.ufrag then push sdp (.str ("a=ice-ufrag:" ++ toStr transport.ufrag))
        else sdp
      let sdp :=
        if truthy transport.pwd then push sdp (.str ("a=ice-pwd:" ++ toStr transport.pwd))
        else sdp
      let sdp :=
        if truthy transport.setup then push sdp (.str ("a=setup:" ++ toStr transport.setup))
        else sdp
      fingerprints.foldl (fun sdp fingerprint => push sdp (fingerprintLine fingerprint)) sdp
    | none => sdp
  let sdp := push sdp (directionLine (content.toContent desc))
  let sdp := push sdp (.str ("a=mid:" ++ toStr content.name))
  let sdp := if truthy desc.mux then push sdp (.str "a=rtcp-mux") else sdp
  let encryption := desc.encryption.getD []
  let sdp := encryption.foldl (fun sdp crypto => push sdp (cryptoLine crypto)) sdp
  let sdp := payloads.foldl payloadStep sdp
  let sdp :=
    match desc.feedback with
    | some feedback => feedback.foldl (fun sdp fb => push sdp (descFeedbackLine fb)) sdp
    | none => sdp
  let hdrExts := desc.headerExtensions.getD []
  hdrExts.foldl (fun sdp hdr => push sdp (extmapLine hdr)) sdp

/-- The body of `ssrcGroups.forEach` at lines 128-130: `ssrcGroup.sources.join`
raises a `TypeError` when `sources` is absent. -/
def rawGroupStep (sdp : List JSValue) (ssrcGroup : RawSourceGroup) :
    Except JSError (List JSValue) :=
  match ssrcGroup.sources with
  | none => .error (.typeError "Cannot read property \x27join\x27 of undefined")
  | some sources =>
    .ok (push sdp
      (.str ("a=ssrc-group:" ++ toStr ssrcGroup.semantics ++ " " ++ join " " sources)))

/-- The body of `ssrcs.forEach` at lines 133-138: the loop test
`ssrc.parameters.length` raises a `TypeError` when `parameters` is absent. -/
def rawSourceStep (desc : RawDescription) (sdp : List JSValue) (ssrc : RawSource) :
    Except JSError (List JSValue) :=
  match ssrc.parameters with
  | none => .error (.typeError "Cannot read property \x27length\x27 of undefined")
  | some parameters =>
    .ok (parameters.foldl
      (fun sdp param =>
        push sdp
          (.str ("a=ssrc:" ++ toStr (orElse ssrc.ssrc desc.ssrc) ++ " " ++ toStr param.key
            ++ (if truthy param.value then ":" ++ toStr param.value else ""))))
      sdp)

/-- The local array `sdp` of `toMediaSDP` when line 145 is reached, for an
argument whose properties may be missing, or the first fault: line 39 for an
absent description, line 129 for a source group without `sources`, line 134
for a source without `parameters`, line 140 for an absent transport. -/
def toMediaSDPRawLines (content : RawContent) : Except JSError (List JSValue) :=
  match content.description with
  | none => .error (.typeError "Cannot read property \x27payloads\x27 of undefined")
  | some desc =>
    let sdp := rawLinesBeforeSources content desc
    let ssrcGroups := desc.sourceGroups.getD []
    match ssrcGroups.foldlM rawGroupStep sdp with
    | .error e => .error e
    | .ok sdp =>
      let ssrcs := desc.sources.getD []
      match ssrcs.foldlM (rawSourceStep desc) sdp with
      | .error e => .error e
      | .ok sdp =>
        match content.transport with
        | none => .error (.typeError "Cannot read property \x27candidates\x27 of undefined")
        | some transport =>
          let candidates := transport.candidates.getD []
          .ok (candidates.foldl
            (fun sdp candidate => push sdp (.str (toCandidateSDP candidate))) sdp)

/-- The function `exports.toMediaSDP` on such an argument: line 145 joins the
array with CRLF. -/
def toMediaSDPRaw (content : RawContent) : Except JSError String :=
  match toMediaSDPRawLines content with
  | .ok sdp => .ok (join "\r\n" sdp)
  | .error e => .error e

/-! ## Further statements of the specification -/

/-- A content is structurally invalid when a required field is missing: the
content name, the description, the media kind, or the id, name or clockrate of
a payload. -/
def missingRequired (content : RawContent) : Bool :=
  content.name == .undefined ||
  match content.description with
  | none => true
  | some desc =>
    desc.media == .undefined ||
    (desc.payloads.getD []).any
      (fun payload =>
        payload.id == .undefined || payload.name == .undefined
          || payload.clockrate == .undefined)

/-- The concatenation of a list of strings. -/
def concatAll : List String → String
  | [] => ""
  | s :: more => s ++ concatAll more

/-- One fmtp parameter as the specification renders it: `key=value` when the
parameter has a key, the bare `value` when it has none. -/
def fmtpParamBySpec (param : Parameter) : String :=
  if truthy param.key then toStr param.key ++ "=" ++ toStr param.value else toStr param.value

/-- The fmtp line of a payload as the specification describes it: for a
non-empty parameter list one line, `a=fmtp:<id>` followed by each parameter
preceded by a single space; no line for an absent or empty list. -/
def fmtpBySpec (payload : Payload) : List JSValue :=
  match payload.parameters with
  | some (param :: more) =>
    [.str ("a=fmtp:" ++ toStr payload.id
      ++ concatAll ((param :: more).map (fun q => " " ++ fmtpParamBySpec q)))]
  | _ => []

/-! ## Further concrete inputs -/

/-- The audio content whose payload declares `channels: 0`. -/
def zeroChannelsContent : Content :=
  { audioContent with
    description :=
      { media := .str "audio", payloads := some [{ opus with channels := .num 0 }] } }

/-- The audio content without a name, with a description and a transport. -/
def namelessRaw : RawContent :=
  { senders := .str "both",
    description := some { media := .str "audio", payloads := some [opus] },
    transport := some {} }

/-- A content with a transport whose name, media kind and payload id, name
and clockrate are all missing. -/
def fieldlessRaw : RawContent :=
  { description := some { payloads := some [{}] }, transport := some {} }

/-- A content with a transport and no description. -/
def noDescriptionRaw : RawContent := { name := .str "audio", transport := some {} }

/-- The audio content with a transport and one source that has an ssrc and no
`parameters`. -/
def noParametersRaw : RawContent :=
  { name := .str "audio", senders := .str "both",
    description := some
      { media := .str "audio", payloads := some [opus], sources := some [{ ssrc := .num 1 }] },
    transport := some {} }

/-- The audio content with a transport and one source group that has semantics
and no `sources`. -/
def noSourcesRaw : RawContent :=
  { name := .str "audio", senders := .str "both",
    description := some
      { media := .str "audio", payloads := some [opus],
        sourceGroups := some [{ semantics := .str "FID" }] },
    transport := some {} }

/-- A content with a transport whose source group has `sources` and whose
source has `parameters`. -/
def fullRaw : RawContent :=
  { name := .str "video", senders := .str "initiator",
    description := some
      { media := .str "video",
        payloads := some [{ id := .num 100, name := .str "VP8", clockrate := .num 90000 }],
        sourceGroups := some [{ semantics := .str "FID", sources := some [.num 1, .num 2] }],
        sources := some
          [{ ssrc := .num 1, parameters := some [{ key := .str "cname", value := .str "c" }] }] },
    transport := some {} }

/-- The audio content with the description-level feedback entry
`{type: "trr-int", value: 0}`. -/
def descTrrIntContent : Content :=
  { audioContent with
    description :=
      { media := .str "audio", payloads := some [opus],
        feedback := some [{ type := .str "trr-int", value := .num 0 }] } }

/-- The audio content with the default ssrc `5` and one source whose own ssrc
is the number `0`. -/
def zeroSsrcContent : Content :=
  { audioContent with
    description :=
      { media := .str "audio", payloads := some [opus], ssrc := .num 5,
        sources := some
          [{ ssrc := .num 0, parameters := [{ key := .str "cname", value := .str "c" }] }] } }

/-- The audio content whose transport holds `setup: ""`. -/
def emptySetupContent : Content :=
  { audioNoTransport with transport := some { setup := .str "" } }

/-- A host candidate whose related address and port are populated. -/
def hostCandidate : Candidate :=
  { relayCandidate with type := .str "host" }

/-- A session without a session id, without groups and without contents. -/
def bareSession : Session := {}

/-- A clock that is frozen at a later reading, `2234`. -/
def laterClock : Clock := fun _ => 2234

/-- The lines of a media section that follow the sender-direction line, in
the order of `emissionOrder`. -/
def afterDirection (content : Content) (transport : Transport) : List JSValue :=
  [.str ("a=mid:" ++ toStr content.name)]
  ++ (if truthy content.description.mux then [.str "a=rtcp-mux"] else [])
  ++ (content.description.encryption.getD []).map cryptoLine
  ++ (content.description.payloads.getD []).flatMap payloadLines
  ++ (content.description.feedback.getD []).map descFeedbackLine
  ++ (content.description.headerExtensions.getD []).map extmapLine
  ++ (content.description.sourceGroups.getD []).map ssrcGroupLine
  ++ (content.description.sources.getD []).flatMap
      (fun ssrc => ssrc.parameters.map (ssrcLine content.description ssrc))
  ++ (transport.candidates.getD []).map (fun candidate => .str (toCandidateSDP candidate))

/-! ## The rtpmap lines of a media section -/

/-- The text `a=rtpmap:` as a list of characters. -/
def rtpmapTag : List Char := "a=rtpmap:".data

/-- Whether the character list `text` begins with the character list `tag`. -/
def startsWith : List Char → List Char → Bool
  | [], _ => true
  | _ :: _, [] => false
  | a :: tag, b :: text => a == b && startsWith tag text

/-- An element of the array `sdp` is an rtpmap line when its text, as `join`
renders it, begins with `a=rtpmap:`. -/
def isRtpmapLine (line : JSValue) : Bool := startsWith rtpmapTag (joinElem line).data

/-- A value is a number or absent. -/
def numericOrAbsent : JSValue → Bool
  | .undefined => true
  | .num _ => true
  | _ => false

/-- A feedback entry is well typed in the sense of the data model: the value
of a `trr-int` entry is a number or absent. -/
def feedbackTyped (fb : Feedback) : Bool :=
  fb.type != .str "trr-int" || numericOrAbsent fb.value

/-- Every feedback entry of the content, on a payload or on the description,
is well typed. -/
def feedbackWellTyped (content : Content) : Bool :=
  (content.description.payloads.getD []).all
      (fun payload => (payload.feedback.getD []).all feedbackTyped)
    && (content.description.feedback.getD []).all feedbackTyped

/-! ## The rtpmap line by channel count -/

/-- The channel suffix of an rtpmap line: none when channels is absent, `null`,
a boolean, the number `0` or `1`, the empty string or the string `"1"`;
otherwise `/` followed by the channels value. -/
def channelSuffix : JSValue → String
  | .num n => if n = 0 ∨ n = 1 then "" else "/" ++ toString n
  | .str s => if s = "" ∨ s = "1" then "" else "/" ++ s
  | .obj text => if text = "1" then "" else "/" ++ text
  | _ => ""

/-- The lines of a media section that precede the lines of the payloads, in
the order of `emissionOrder`. -/
def beforePayloads (content : Content) (transport : Transport) : List JSValue :=
  [.str ("m=" ++ join " "
      (mlineTokens content.description (transport.fingerprints.getD []))),
    .str "c=IN IP4 0.0.0.0",
    .str "a=rtcp:1 IN IP4 0.0.0.0"]
  ++ transportLines transport
  ++ [directionLine content, .str ("a=mid:" ++ toStr content.name)]
  ++ (if truthy content.description.mux then [.str "a=rtcp-mux"] else [])
  ++ (content.description.encryption.getD []).map cryptoLine

/-- The lines of a media section that follow the lines of the payloads, in the
order of `emissionOrder`. -/
def afterPayloads (content : Content) (transport : Transport) : List JSValue :=
  (content.description.feedback.getD []).map descFeedbackLine
  ++ (content.description.headerExtensions.getD []).map extmapLine
  ++ (content.description.sourceGroups.getD []).map ssrcGroupLine
  ++ (content.description.sources.getD []).flatMap
      (fun ssrc => ssrc.parameters.map (ssrcLine content.description ssrc))
  ++ (transport.candidates.getD []).map (fun candidate => .str (toCandidateSDP candidate))

/-- The audio content whose payload 111 carries the feedback entry
`{type: "trr-int", value: "a=rtpmap:999 evil/90000"}`. -/
def injectedRtpmapContent : Content :=
  { audioContent with
    description :=
      { media := .str "audio",
        payloads := some
          [{ opus with
             feedback := some
               [{ type := .str "trr-int", value := .str "a=rtpmap:999 evil/90000" }] }] } }

/-! ## Helper lemmas -/

theorem foldl_push_map {α : Type} (f : α → JSValue) (xs : List α) (init : List JSValue) :
    xs.foldl (fun sdp x => push sdp (f x)) init = init ++ xs.map f := by
  induction xs generalizing init with
  | nil => simp
  | cons x xs ih =>
    rw [List.foldl_cons, ih]
    simp [push]

theorem payloadStep_eq (sdp : List JSValue) (payload : Payload) :
    payloadStep sdp payload = sdp ++ payloadLines payload := by
  unfold payloadStep payloadLines fmtpLines
  rcases hp : payload.parameters with _ | ps
  · rcases hf : payload.feedback with _ | fbs
    · simp [push]
    · simp only [foldl_push_map]
      simp [push]
  · cases ps with
    | nil =>
      rcases hf : payload.feedback with _ | fbs
      · simp [push]
      · simp only [foldl_push_map]
        simp [push]
    | cons p ps =>
      rcases hf : payload.feedback with _ | fbs
      · simp [push]
      · simp only [foldl_push_map]
        simp [push]

theorem foldl_payloadStep (payloads : List Payload) (init : List JSValue) :
    payloads.foldl payloadStep init = init ++ payloads.flatMap payloadLines := by
  induction payloads generalizing init with
  | nil => simp
  | cons p ps ih =>
    rw [List.foldl_cons, ih, payloadStep_eq]
    simp

theorem foldl_append_flatMap {α : Type} (g : α → List JSValue) (xs : List α)
    (init : List JSValue) :
    xs.foldl (fun sdp x => sdp ++ g x) init = init ++ xs.flatMap g := by
  induction xs generalizing init with
  | nil => simp
  | cons x xs ih =>
    rw [List.foldl_cons, ih]
    simp

theorem toMediaSDPLines_of_transport (content : Content) (transport : Transport)
    (h : content.transport = some transport) :
    toMediaSDPLines content = .ok (emissionOrder content transport) := by
  unfold toMediaSDPLines emissionOrder transportLines
  simp only [h, foldl_push_map, foldl_payloadStep, foldl_append_flatMap]
  rcases hfb : content.description.feedback with _ | fbs <;>
    by_cases hu : truthy transport.ufrag = true <;>
    by_cases hp : truthy transport.pwd = true <;>
    by_cases hs : truthy transport.setup = true <;>
    by_cases hm : truthy content.description.mux = true <;>
    simp [hu, hp, hs, hm, foldl_push_map, push]

theorem toMediaSDPLines_of_no_transport (content : Content) (h : content.transport = none) :
    toMediaSDPLines content
      = .error (.typeError "Cannot read property \x27candidates\x27 of undefined") := by
  unfold toMediaSDPLines
  simp only [h]

theorem toMediaSDPLines_ok_iff (content : Content) (lines : List JSValue) :
    toMediaSDPLines content = .ok lines
      ↔ ∃ transport, content.transport = some transport
          ∧ lines = emissionOrder content transport := by
  rcases h : content.transport with _ | transport
  · rw [toMediaSDPLines_of_no_transport content h]
    simp
  · rw [toMediaSDPLines_of_transport content transport h]
    constructor
    · intro hl
      exact ⟨transport, rfl, (Except.ok.inj hl).symm⟩
    · rintro ⟨t, ht, rfl⟩
      rw [Option.some.inj ht]

theorem emissionOrder_direction (content : Content) (transport : Transport)
    (h : content.transport = some transport) :
    (emissionOrder content transport)[directionIndex content]? = some (directionLine content) := by
  unfold emissionOrder directionIndex
  simp only [h, List.append_assoc]
  rw [List.getElem?_append_right (by simp)]
  rw [List.getElem?_append_right (by simp)]
  simp

theorem direction_emitted (content : Content) (lines : List JSValue)
    (h : toMediaSDPLines content = .ok lines) :
    lines[directionIndex content]? = some (directionLine content) := by
  obtain ⟨transport, ht, rfl⟩ := (toMediaSDPLines_ok_iff content lines).1 h
  exact emissionOrder_direction content transport ht

/-! ## C1: a content without a transport -/

/-- C1: the specification asks that a content without a transport renders with
no candidate and no fingerprint line. The code faults instead: for every
content whose transport is absent, `toMediaSDP` raises the `TypeError` of line
140, where `transport.candidates` is read without the guard that lines 40 and
59 apply. -/
theorem toMediaSDP_absent_transport_faults (content : Content)
    (h : content.transport = none) :
    toMediaSDP content
      = .error (.typeError "Cannot read property \x27candidates\x27 of undefined") := by
  unfold toMediaSDP
  rw [toMediaSDPLines_of_no_transport content h]

/-- The fault of C1 at the audio content of the specification's scenario. -/
theorem toMediaSDP_absent_transport_faults_witness :
    audioNoTransport.transport = none
      ∧ toMediaSDP audioNoTransport
          = .error (.typeError "Cannot read property \x27candidates\x27 of undefined") :=
  ⟨rfl, toMediaSDP_absent_transport_faults audioNoTransport rfl⟩

/-! ## C2: `trr-int` feedback on a payload -/

theorem payloadFeedbackLine_trrInt (payload : Payload) (fb : Feedback)
    (h : fb.type = .str "trr-int") :
    payloadFeedbackLine payload fb = fb.value := by
  unfold payloadFeedbackLine
  have hne : ("a=rtcp-fb:" ++ toStr payload.id ++ " trr-int " ++ toStr fb.value) ≠ "" := by
    intro hcon
    have hlen := congrArg String.length hcon
    simp [String.length_append] at hlen
    exact absurd hlen.1.2 (by decide)
  simp [h, truthy, hne]

/-- C2: the specification asks for the line `a=rtcp-fb:111 trr-int 0` when the
payload 111 carries the feedback entry `{type: "trr-int", value: 0}`. The code
emits the bare value `0` as that line: in line 104 the concatenation is the
condition of `?:`, so the value alone is pushed. -/
theorem toMediaSDP_trrInt_line :
    toMediaSDP trrIntContent
      = .ok ("m=audio 1 RTP/AVPF 111\r\nc=IN IP4 0.0.0.0\r\na=rtcp:1 IN IP4 0.0.0.0\r\n"
          ++ "a=sendrecv\r\na=mid:audio\r\na=rtpmap:111 opus/48000/2\r\n0") := by
  rfl

/-! ## C3: wire tokens as senders -/

/-- C3, as stated, fails: with senders `"recvonly"` the sender-direction line
is `a=responder`, not `a=recvonly`. -/
theorem wire_token_not_passed_through :
    ¬ ∀ (content : Content) (lines : List JSValue) (token : String),
        token ∈ ["sendonly", "recvonly", "sendrecv", "inactive"] →
        content.senders = .str token →
        toMediaSDPLines content = .ok lines →
        lines[directionIndex content]? = some (.str ("a=" ++ token)) := by
  intro h
  have h3 := h recvonlyContent
    [.str "m=audio 1 RTP/AVPF 111", .str "c=IN IP4 0.0.0.0", .str "a=rtcp:1 IN IP4 0.0.0.0",
      .str "a=responder", .str "a=mid:audio", .str "a=rtpmap:111 opus/48000/2"]
    "recvonly" (by decide) rfl rfl
  revert h3
  decide

/-- C3, amended: for a content on which `toMediaSDP` returns and whose senders
value is one of the wire tokens recvonly, sendrecv, inactive, the
sender-direction line is `a=` followed by the semantic role that the table
pairs with the token: `a=responder`, `a=both`, `a=none`. -/
theorem wire_token_maps_to_role (content : Content) (lines : List JSValue)
    (token role : String)
    (hpair : (token, role) ∈ [("recvonly", "responder"), ("sendrecv", "both"), ("inactive", "none")])
    (hs : content.senders = .str token)
    (h : toMediaSDPLines content = .ok lines) :
    lines[directionIndex content]? = some (.str ("a=" ++ role)) := by
  rw [direction_emitted content lines h]
  unfold directionLine
  rw [hs]
  simp only [List.mem_cons, Prod.mk.injEq, List.mem_singleton, List.not_mem_nil, or_false] at hpair
  rcases hpair with ⟨rfl, rfl⟩ | ⟨rfl, rfl⟩ | ⟨rfl, rfl⟩ <;> rfl

/-- The amended C3 at the audio content with senders `"recvonly"`. -/
theorem wire_token_maps_to_role_witness :
    ([.str "m=audio 1 RTP/AVPF 111", .str "c=IN IP4 0.0.0.0", .str "a=rtcp:1 IN IP4 0.0.0.0",
        .str "a=responder", .str "a=mid:audio",
        .str "a=rtpmap:111 opus/48000/2"] : List JSValue)[directionIndex recvonlyContent]?
      = some (.str ("a=" ++ "responder")) :=
  wire_token_maps_to_role recvonlyContent _ "recvonly" "responder" (by decide) rfl rfl

/-! ## C4: the candidate line -/

/-- C4, as stated, fails: a relay candidate whose related port is the number
`0` has both related fields present, yet the code leaves the
`raddr`/`rport` group out. -/
theorem candidate_presence_fails :
    ¬ ∀ candidate : Candidate,
        toCandidateSDP candidate
          = "a=candidate:" ++ join " " (candidateTokensByPresence candidate) := by
  intro h
  have h0 := h relayZeroPort
  revert h0
  decide

/-- C4, amended: for every candidate, `toCandidateSDP` returns `a=candidate:`
followed by the space-joined tokens foundation, component, protocol, priority,
ip, port, `typ`, type, then `raddr` relAddr `rport` relPort if and only if the
type is srflx, prflx or relay and both relAddr and relPort are truthy, then
`generation` and the generation, or `0` when the generation is falsy. The
candidate of the specification's scenario renders as the specification says. -/
theorem toCandidateSDP_tokens :
    (∀ candidate : Candidate,
        toCandidateSDP candidate
          = "a=candidate:" ++ join " " (candidateTokensByTruth candidate))
    ∧ toCandidateSDP relayCandidate
        = "a=candidate:1 1 udp 2130706431 10.0.0.1 54321 typ relay raddr 1.2.3.4 rport 9000 generation 0" := by
  refine ⟨?_, by rfl⟩
  intro candidate
  unfold toCandidateSDP candidateTokensByTruth
  by_cases ht : candidate.type = .str "srflx" ∨ candidate.type = .str "prflx"
      ∨ candidate.type = .str "relay"
  · by_cases ha : truthy candidate.relAddr = true
    · by_cases hp : truthy candidate.relPort = true <;>
        by_cases hg : truthy candidate.generation = true <;>
        simp [ht, ha, hp, hg, push, andAlso, orElse]
    · by_cases hg : truthy candidate.generation = true <;>
        simp [ht, ha, hg, push, andAlso, orElse]
  · by_cases hg : truthy candidate.generation = true <;>
      simp [ht, hg, push, andAlso, orElse]

/-! ## C5: the profile token of the m-line -/

theorem foldl_push_id (payloads : List Payload) (init : List JSValue) :
    payloads.foldl (fun mline payload => push mline payload.id) init
      = init ++ payloads.map (fun payload => payload.id) :=
  foldl_push_map (fun payload => payload.id) payloads init

theorem mlineTokens_secure (desc : Description) (fingerprints : List Fingerprint)
    (h : desc.encryption.getD [] ≠ [] ∨ fingerprints ≠ []) :
    mlineTokens desc fingerprints
      = desc.media :: .str "1" :: .str "RTP/SAVPF"
          :: (desc.payloads.getD []).map (fun payload => payload.id) := by
  unfold mlineTokens
  simp only [foldl_push_id]
  rcases he : desc.encryption with _ | enc
  · rw [he] at h
    rcases fingerprints with _ | ⟨f, fs⟩
    · simp at h
    · simp [push]
  · rw [he] at h
    rcases enc with _ | ⟨e, es⟩
    · rcases fingerprints with _ | ⟨f, fs⟩
      · simp at h
      · simp [push]
    · simp [push]

theorem mlineTokens_plain (desc : Description) (fingerprints : List Fingerprint)
    (he : desc.encryption.getD [] = []) (hf : fingerprints = []) :
    mlineTokens desc fingerprints
      = desc.media :: .str "1" :: .str "RTP/AVPF"
          :: (desc.payloads.getD []).map (fun payload => payload.id) := by
  unfold mlineTokens
  simp only [foldl_push_id]
  subst hf
  rcases hd : desc.encryption with _ | enc
  · simp [push]
  · rw [hd] at he
    simp only [Option.getD_some] at he
    subst he
    simp [push]

/-- C5: for every content on which `toMediaSDP` returns, the first line of the
array it joins is `m=` followed by the space-joined tokens media, `1`, the
profile and the payload ids, and the profile, the third token, is exactly
`RTP/SAVPF` if the description has at least one encryption entry or the
transport has at least one fingerprint, and exactly `RTP/AVPF` otherwise. -/
theorem mline_profile (content : Content) (lines : List JSValue)
    (h : toMediaSDPLines content = .ok lines) :
    ((content.description.encryption.getD [] ≠ []
        ∨ ∃ transport, content.transport = some transport
            ∧ transport.fingerprints.getD [] ≠ []) →
      lines.head? = some (.str ("m=" ++ join " "
        (content.description.media :: .str "1" :: .str "RTP/SAVPF"
          :: (content.description.payloads.getD []).map (fun payload => payload.id)))))
    ∧ (¬ (content.description.encryption.getD [] ≠ []
        ∨ ∃ transport, content.transport = some transport
            ∧ transport.fingerprints.getD [] ≠ []) →
      lines.head? = some (.str ("m=" ++ join " "
        (content.description.media :: .str "1" :: .str "RTP/AVPF"
          :: (content.description.payloads.getD []).map (fun payload => payload.id))))) := by
  obtain ⟨transport, ht, rfl⟩ := (toMediaSDPLines_ok_iff content lines).1 h
  constructor
  · intro hsec
    have hsec2 : content.description.encryption.getD [] ≠ []
        ∨ transport.fingerprints.getD [] ≠ [] := by
      rcases hsec with he | ⟨t, ht2, hf⟩
      · exact Or.inl he
      · rw [ht] at ht2
        rw [Option.some.inj ht2]
        exact Or.inr hf
    simp [emissionOrder, mlineTokens_secure _ _ hsec2]
  · intro hplain
    have he : content.description.encryption.getD [] = [] := by
      by_contra hne
      exact hplain (Or.inl hne)
    have hf : transport.fingerprints.getD [] = [] := by
      by_contra hne
      exact hplain (Or.inr ⟨transport, ht, hne⟩)
    simp [emissionOrder, mlineTokens_plain _ _ he hf]

/-- C5 at the content that has one encryption entry and one fingerprint: the
m-line is `m=video 1 RTP/SAVPF 100 116`. -/
theorem mline_profile_witness :
    (emissionOrder fullContent fullTransport).head?
      = some (.str ("m=" ++ join " "
          (fullContent.description.media :: .str "1" :: .str "RTP/SAVPF"
            :: (fullContent.description.payloads.getD []).map (fun payload => payload.id)))) :=
  (mline_profile fullContent (emissionOrder fullContent fullTransport)
    (toMediaSDPLines_of_transport fullContent fullTransport rfl)).1
    (Or.inl (List.cons_ne_nil _ _))

/-! ## C6: the emission order of a media section -/

/-- C6: for every content with a transport, `toMediaSDP` returns the CRLF-join,
with nothing before or after it, of the lines in the order of section 4.3: the
m-line; `c=IN IP4 0.0.0.0`; `a=rtcp:1 IN IP4 0.0.0.0`; the ice-ufrag, ice-pwd,
setup and fingerprint lines; the sender-direction line; `a=mid:<name>`;
`a=rtcp-mux` iff the mux flag is set; the crypto lines; for each payload in
order its rtpmap line, its fmtp line and its feedback lines; the
description-level feedback lines; the extmap lines; the ssrc-group lines; the
ssrc lines; the candidate lines. -/
theorem media_section_order (content : Content) (transport : Transport)
    (h : content.transport = some transport) :
    toMediaSDP content = .ok (join "\r\n" (emissionOrder content transport)) := by
  unfold toMediaSDP
  rw [toMediaSDPLines_of_transport content transport h]

/-- C6 at a content that has every segment. -/
theorem media_section_order_witness :
    fullContent.transport = some fullTransport
      ∧ toMediaSDP fullContent = .ok (join "\r\n" (emissionOrder fullContent fullTransport)) :=
  ⟨rfl, media_section_order fullContent fullTransport rfl⟩

/-! ## C7: the lines of a session -/

theorem foldlM_contentStep (contents : List Content) (init : List JSValue) :
    contents.foldlM contentStep init
      = match mediaSections contents with
        | .ok sections => .ok (init ++ sections)
        | .error e => .error e := by
  induction contents generalizing init with
  | nil => simp [mediaSections, pure, Except.pure]
  | cons content more ih =>
    rw [List.foldlM_cons, mediaSections]
    rcases hc : toMediaSDP content with e | text
    · simp [contentStep, hc, bind, Except.bind]
    · have hstep : contentStep init content = .ok (push init (.str text)) := by
        simp [contentStep, hc]
      rw [hstep]
      simp only [bind, Except.bind]
      rw [ih]
      rcases hm : mediaSections more with e | sections <;> simp [push]

theorem toSessionSDPLines_eq (clock : Clock) (session : Session) (sid time : JSValue) :
    toSessionSDPLines clock session sid time
      = match mediaSections (session.contents.getD []) with
        | .ok sections =>
          .ok ([.str "v=0", originLine clock session sid time, .str "s=-", .str "t=0 0"]
            ++ (session.groups.getD []).map groupLine ++ sections)
        | .error e => .error e := by
  unfold toSessionSDPLines
  simp only [foldl_push_map, foldlM_contentStep]

/-- C7: for every session and every sid and time, `toSessionSDP` returns the
CRLF-join of the lines `v=0`, the origin line, `s=-`, `t=0 0`, then one line
`a=group:<semantics> <content names joined by single spaces>` per group in
input order, then the text of `toMediaSDP` for each content in input order,
followed by exactly one trailing CRLF; absent groups or contents contribute
no lines. Where a `toMediaSDP` call faults, `toSessionSDP` raises the fault
of the first such call. -/
theorem session_lines (clock : Clock) (session : Session) (sid time : JSValue) :
    toSessionSDP clock session sid time
      = match mediaSections (session.contents.getD []) with
        | .ok sections =>
          .ok (join "\r\n"
              ([.str "v=0", originLine clock session sid time, .str "s=-", .str "t=0 0"]
                ++ (session.groups.getD []).map
                    (fun group =>
                      .str ("a=group:" ++ toStr group.semantics ++ " "
                        ++ join " " group.contents))
                ++ sections)
            ++ "\r\n")
        | .error e => .error e := by
  unfold toSessionSDP
  rw [toSessionSDPLines_eq]
  rcases mediaSections (session.contents.getD []) with e | sections
  · rfl
  · rfl

/-! ## C8: the origin line -/

theorem originLine_eq (clock : Clock) (session : Session) (sid time : JSValue) :
    originLine clock session sid time = originByTruth clock session sid time := by
  unfold originLine originByTruth orElseNow orElse dateNow
  by_cases h1 : truthy sid = true <;> by_cases h2 : truthy session.sid = true <;>
    by_cases h3 : truthy time = true <;> simp [h1, h2, h3]

/-- C8, as stated, fails: with the session id `"abc"` and the sid argument `0`,
a number that the caller supplies, the origin line names `abc`, not `0`. -/
theorem origin_presence_fails :
    ¬ ∀ (now : Int) (session : Session) (sid time : JSValue) (lines : List JSValue),
        toSessionSDPLines (fun _ => now) session sid time = .ok lines →
        lines[1]? = some (originByPresence now session sid time) := by
  intro h
  have h0 := h 1234 abcSession (.num 0) .undefined
    [.str "v=0", .str "o=- abc 1234 IN IP4 0.0.0.0", .str "s=-", .str "t=0 0",
      .str "a=group:BUNDLE audio",
      .str ("m=audio 1 RTP/AVPF 111\r\nc=IN IP4 0.0.0.0\r\na=rtcp:1 IN IP4 0.0.0.0\r\n"
        ++ "a=sendrecv\r\na=mid:audio\r\na=rtpmap:111 opus/48000/2")]
    rfl
  revert h0
  decide

/-- C8, amended: for every session on which `toSessionSDP` returns, the second
line is `o=- <S> <T> IN IP4 0.0.0.0`, where S is the sid argument whenever it
is truthy (a non-empty string or a non-zero number), otherwise `session.sid`
when that is truthy, otherwise the current-time value; and T is the time
argument whenever it is truthy, otherwise the current-time value. -/
theorem origin_by_truth (clock : Clock) (session : Session) (sid time : JSValue)
    (lines : List JSValue)
    (h : toSessionSDPLines clock session sid time = .ok lines) :
    lines[1]? = some (originByTruth clock session sid time) := by
  rw [toSessionSDPLines_eq] at h
  rcases hm : mediaSections (session.contents.getD []) with e | sections
  · rw [hm] at h
    cases h
  · rw [hm] at h
    have hl := Except.ok.inj h
    rw [← hl, originLine_eq]
    simp

/-- The amended C8 at the session `abc` with the sid argument `0`. -/
theorem origin_by_truth_witness :
    ([.str "v=0", .str "o=- abc 1234 IN IP4 0.0.0.0", .str "s=-", .str "t=0 0",
        .str "a=group:BUNDLE audio",
        .str ("m=audio 1 RTP/AVPF 111\r\nc=IN IP4 0.0.0.0\r\na=rtcp:1 IN IP4 0.0.0.0\r\n"
          ++ "a=sendrecv\r\na=mid:audio\r\na=rtpmap:111 opus/48000/2")] : List JSValue)[1]?
      = some (originByTruth frozenClock abcSession (.num 0) .undefined) :=
  origin_by_truth frozenClock abcSession (.num 0) .undefined _ rfl

/-! ## C9: the sender-direction line -/

theorem directionLine_of_role (content : Content) (role token : String)
    (hpair : (role, token) ∈ [("initiator", "sendonly"), ("responder", "recvonly"),
      ("both", "sendrecv"), ("none", "inactive")])
    (hs : content.senders = .str role) :
    directionLine content = .str ("a=" ++ token) := by
  unfold directionLine
  rw [hs]
  simp only [List.mem_cons, Prod.mk.injEq, List.mem_singleton, List.not_mem_nil, or_false] at hpair
  rcases hpair with ⟨rfl, rfl⟩ | ⟨rfl, rfl⟩ | ⟨rfl, rfl⟩ | ⟨rfl, rfl⟩ <;> rfl

theorem directionLine_of_absent (content : Content) (hs : content.senders = .undefined) :
    directionLine content = .str "a=sendrecv" := by
  unfold directionLine
  rw [hs]
  rfl

theorem directionLine_of_unknown (content : Content)
    (hown : senders.lookup (toStr content.senders) = none)
    (hinherited : objectPrototype.lookup (toStr content.senders) = none) :
    directionLine content = .str "a=sendrecv" := by
  unfold directionLine sendersGet
  rw [hown, hinherited]
  rfl

/-- C9: the specification asks for `a=sendrecv` for any senders string that is
not in the role table. With senders `"constructor"` the code emits
`a=function Object() { [native code] }`: the read `senders[content.senders]`
finds the property that the object literal inherits from `Object.prototype`,
which is truthy, so the fallback of line 74 is not taken. -/
theorem toMediaSDP_constructor_direction :
    toMediaSDP constructorContent
      = .ok ("m=audio 1 RTP/AVPF 111\r\nc=IN IP4 0.0.0.0\r\na=rtcp:1 IN IP4 0.0.0.0\r\n"
          ++ "a=function Object() \x7b [native code] \x7d\r\n"
          ++ "a=mid:audio\r\na=rtpmap:111 opus/48000/2") := by
  rfl

/-! ## C10: the extmap line -/

theorem extmapLine_of_no_senders (hdr : HeaderExtension) (h : truthy hdr.senders = false) :
    extmapLine hdr = .str ("a=extmap:" ++ toStr hdr.id ++ " " ++ toStr hdr.uri) := by
  unfold extmapLine
  simp [h]

/-- C10: the specification asks that a header-extension role that is not in the
table resolves to `sendrecv`. For the extension
`{id: 1, uri: "urn:x", senders: "foo"}` the code emits
`a=extmap:1/undefined urn:x`: line 124 reads the table without the
`|| 'sendrecv'` fallback that line 74 applies. -/
theorem toMediaSDP_extmap_unknown_role :
    toMediaSDP extmapFooContent
      = .ok ("m=audio 1 RTP/AVPF 111\r\nc=IN IP4 0.0.0.0\r\na=rtcp:1 IN IP4 0.0.0.0\r\n"
          ++ "a=sendrecv\r\na=mid:audio\r\na=rtpmap:111 opus/48000/2\r\n"
          ++ "a=extmap:1/undefined urn:x") := by
  rfl

/-! ## C11: the channel suffix of the rtpmap line -/

theorem payloadLines_emitted (content : Content) (lines : List JSValue) (payload : Payload)
    (h : toMediaSDPLines content = .ok lines)
    (hp : payload ∈ content.description.payloads.getD [])
    (line : JSValue) (hl : line ∈ payloadLines payload) :
    line ∈ lines := by
  obtain ⟨transport, _, rfl⟩ := (toMediaSDPLines_ok_iff content lines).1 h
  unfold emissionOrder
  simp only [List.mem_append, List.mem_flatMap]
  exact Or.inl (Or.inl (Or.inl (Or.inl (Or.inl (Or.inr ⟨payload, hp, hl⟩)))))

theorem rtpmapLine_emitted (content : Content) (lines : List JSValue) (payload : Payload)
    (h : toMediaSDPLines content = .ok lines)
    (hp : payload ∈ content.description.payloads.getD []) :
    rtpmapLine payload ∈ lines :=
  payloadLines_emitted content lines payload h hp _ (by simp [payloadLines])

/-- C11, as stated, fails: for the channel count `0`, which is neither absent
nor equal to `1`, the rtpmap line carries no `/0` suffix. -/
theorem rtpmap_zero_channels_fails :
    ¬ ∀ (content : Content) (lines : List JSValue) (payload : Payload) (n : Int),
        toMediaSDPLines content = .ok lines →
        payload ∈ content.description.payloads.getD [] →
        payload.channels = .num n → 0 ≤ n → n ≠ 1 →
        .str ("a=rtpmap:" ++ toStr payload.id ++ " " ++ toStr payload.name ++ "/"
          ++ toStr payload.clockrate ++ "/" ++ toString n) ∈ lines := by
  intro h
  have h0 := h zeroChannelsContent
    [.str "m=audio 1 RTP/AVPF 111", .str "c=IN IP4 0.0.0.0", .str "a=rtcp:1 IN IP4 0.0.0.0",
      .str "a=sendrecv", .str "a=mid:audio", .str "a=rtpmap:111 opus/48000"]
    { opus with channels := .num 0 } 0 rfl (List.mem_singleton.2 rfl) rfl (by decide) (by decide)
  revert h0
  decide

theorem rtpmapLine_eq_suffix (payload : Payload) :
    rtpmapLine payload
      = .str ("a=rtpmap:" ++ toStr payload.id ++ " " ++ toStr payload.name ++ "/"
          ++ toStr payload.clockrate ++ channelSuffix payload.channels) := by
  unfold rtpmapLine channelSuffix
  rcases hc : payload.channels with _ | _ | b | n | t | text
  · simp [truthy]
  · simp [truthy]
  · cases b <;> simp [truthy, looseNeOne]
  · by_cases h0 : n = 0
    · simp [truthy, h0]
    · by_cases h1 : n = 1
      · simp [truthy, looseNeOne, h1]
      · simp [truthy, looseNeOne, h0, h1, toStr, String.append_assoc]
  · by_cases h0 : t = ""
    · simp [truthy, h0]
    · by_cases h1 : t = "1"
      · simp [truthy, looseNeOne, h1]
      · simp [truthy, looseNeOne, h0, h1, toStr, String.append_assoc]
  · by_cases h1 : text = "1"
    · simp [truthy, looseNeOne, h1]
    · simp [truthy, looseNeOne, h1, toStr, String.append_assoc]

theorem emissionOrder_by_payloads (content : Content) (transport : Transport) :
    emissionOrder content transport
      = beforePayloads content transport
        ++ (content.description.payloads.getD []).flatMap payloadLines
        ++ afterPayloads content transport := by
  unfold emissionOrder beforePayloads afterPayloads
  simp only [List.append_assoc]

/-- C11, amended: for every content with a transport, `toMediaSDP` returns the
CRLF-join of the lines before the payloads, then for each payload in order
exactly one rtpmap line followed by the fmtp and feedback lines of that
payload, then the lines after the payloads; the rtpmap line of a payload is
`a=rtpmap:<id> <name>/<clockrate>` with no channel suffix when channels is
absent, `0` or equal to `1` (the number or the string `"1"`), and
`a=rtpmap:<id> <name>/<clockrate>/<channels>` when channels is any other
count, that is any other whole number (for channels `2` the suffix is `/2`). -/
theorem rtpmap_channels (content : Content) (transport : Transport)
    (h : content.transport = some transport) :
    toMediaSDP content
        = .ok (join "\r\n"
            (beforePayloads content transport
              ++ (content.description.payloads.getD []).flatMap
                  (fun payload =>
                    .str ("a=rtpmap:" ++ toStr payload.id ++ " " ++ toStr payload.name ++ "/"
                        ++ toStr payload.clockrate ++ channelSuffix payload.channels)
                      :: (fmtpLines payload
                          ++ (payload.feedback.getD []).map (payloadFeedbackLine payload)))
              ++ afterPayloads content transport))
      ∧ channelSuffix .undefined = ""
      ∧ channelSuffix (.num 0) = ""
      ∧ channelSuffix (.num 1) = ""
      ∧ channelSuffix (.str "1") = ""
      ∧ channelSuffix (.num 2) = "/2"
      ∧ ∀ n : Int, n ≠ 0 → n ≠ 1 → channelSuffix (.num n) = "/" ++ toString n := by
  refine ⟨?_, rfl, rfl, rfl, rfl, rfl, ?_⟩
  · unfold toMediaSDP
    rw [toMediaSDPLines_of_transport content transport h, emissionOrder_by_payloads]
    have hfun : payloadLines
        = fun payload =>
            .str ("a=rtpmap:" ++ toStr payload.id ++ " " ++ toStr payload.name ++ "/"
                ++ toStr payload.clockrate ++ channelSuffix payload.channels)
              :: (fmtpLines payload
                  ++ (payload.feedback.getD []).map (payloadFeedbackLine payload)) := by
      funext payload
      unfold payloadLines
      rw [rtpmapLine_eq_suffix]
    rw [hfun]
  · intro n h0 h1
    simp [channelSuffix, h0, h1]

/-- The amended C11 at the audio content, whose opus payload has two channels:
the text holds the one rtpmap line `a=rtpmap:111 opus/48000/2`. -/
theorem rtpmap_channels_witness :
    toMediaSDP audioContent
      = .ok ("m=audio 1 RTP/AVPF 111\r\nc=IN IP4 0.0.0.0\r\na=rtcp:1 IN IP4 0.0.0.0\r\n"
          ++ "a=sendrecv\r\na=mid:audio\r\na=rtpmap:111 opus/48000/2") :=
  (rtpmap_channels audioContent {} rfl).1

/-! ## C12: contents with a missing required field -/

theorem foldlM_rawGroupStep_ok (ssrcGroups : List RawSourceGroup) (init : List JSValue)
    (h : ∀ ssrcGroup ∈ ssrcGroups, ssrcGroup.sources ≠ none) :
    ssrcGroups.foldlM rawGroupStep init
      = .ok (init ++ ssrcGroups.map (fun ssrcGroup => ssrcGroupLine ssrcGroup.toSourceGroup)) := by
  induction ssrcGroups generalizing init with
  | nil => simp [pure, Except.pure]
  | cons ssrcGroup more ih =>
    rw [List.foldlM_cons]
    rcases hsrc : ssrcGroup.sources with _ | sources
    · exact absurd hsrc (h ssrcGroup (List.mem_cons_self _ _))
    · have hstep : rawGroupStep init ssrcGroup
          = .ok (push init (ssrcGroupLine ssrcGroup.toSourceGroup)) := by
        simp [rawGroupStep, hsrc, ssrcGroupLine, RawSourceGroup.toSourceGroup]
      rw [hstep]
      simp only [bind, Except.bind]
      rw [ih _ (fun g hg => h g (List.mem_cons_of_mem _ hg))]
      simp [push]

theorem foldlM_rawGroupStep_error (ssrcGroups : List RawSourceGroup) (init : List JSValue)
    (h : ∃ ssrcGroup ∈ ssrcGroups, ssrcGroup.sources = none) :
    ssrcGroups.foldlM rawGroupStep init
      = .error (.typeError "Cannot read property \x27join\x27 of undefined") := by
  induction ssrcGroups generalizing init with
  | nil =>
    obtain ⟨g, hg, _⟩ := h
    cases hg
  | cons ssrcGroup more ih =>
    rw [List.foldlM_cons]
    rcases hsrc : ssrcGroup.sources with _ | sources
    · simp [rawGroupStep, hsrc, bind, Except.bind]
    · have hmore : ∃ g ∈ more, g.sources = none := by
        obtain ⟨g, hg, hnone⟩ := h
        rcases List.mem_cons.1 hg with rfl | hg
        · rw [hsrc] at hnone
          cases hnone
        · exact ⟨g, hg, hnone⟩
      simp only [rawGroupStep, hsrc, bind, Except.bind]
      exact ih _ hmore

theorem foldlM_rawSourceStep_ok (desc : RawDescription) (ssrcs : List RawSource)
    (init : List JSValue) (h : ∀ ssrc ∈ ssrcs, ssrc.parameters ≠ none) :
    ssrcs.foldlM (rawSourceStep desc) init
      = .ok (init ++ ssrcs.flatMap
          (fun ssrc => ssrc.toSource.parameters.map (ssrcLine desc.toDescription ssrc.toSource))) := by
  induction ssrcs generalizing init with
  | nil => simp [pure, Except.pure]
  | cons ssrc more ih =>
    rw [List.foldlM_cons]
    rcases hpar : ssrc.parameters with _ | parameters
    · exact absurd hpar (h ssrc (List.mem_cons_self _ _))
    · have hstep : rawSourceStep desc init ssrc
          = .ok (init ++ ssrc.toSource.parameters.map
              (ssrcLine desc.toDescription ssrc.toSource)) := by
        simp only [rawSourceStep, hpar, foldl_push_map, RawSource.toSource, Option.getD_some]
        rfl
      rw [hstep]
      simp only [bind, Except.bind]
      rw [ih _ (fun g hg => h g (List.mem_cons_of_mem _ hg))]
      simp

theorem foldlM_rawSourceStep_error (desc : RawDescription) (ssrcs : List RawSource)
    (init : List JSValue) (h : ∃ ssrc ∈ ssrcs, ssrc.parameters = none) :
    ssrcs.foldlM (rawSourceStep desc) init
      = .error (.typeError "Cannot read property \x27length\x27 of undefined") := by
  induction ssrcs generalizing init with
  | nil =>
    obtain ⟨g, hg, _⟩ := h
    cases hg
  | cons ssrc more ih =>
    rw [List.foldlM_cons]
    rcases hpar : ssrc.parameters with _ | parameters
    · simp [rawSourceStep, hpar, bind, Except.bind]
    · have hmore : ∃ g ∈ more, g.parameters = none := by
        obtain ⟨g, hg, hnone⟩ := h
        rcases List.mem_cons.1 hg with rfl | hg
        · rw [hpar] at hnone
          cases hnone
        · exact ⟨g, hg, hnone⟩
      simp only [rawSourceStep, hpar, bind, Except.bind]
      exact ih _ hmore

theorem rawLinesBeforeSources_eq (content : RawContent) (desc : RawDescription)
    (transport : Transport) (h : content.transport = some transport) :
    rawLinesBeforeSources content desc
      = [.str ("m=" ++ join " "
            (mlineTokens desc.toDescription (transport.fingerprints.getD []))),
          .str "c=IN IP4 0.0.0.0", .str "a=rtcp:1 IN IP4 0.0.0.0"]
        ++ transportLines transport
        ++ [directionLine (content.toContent desc), .str ("a=mid:" ++ toStr content.name)]
        ++ (if truthy desc.mux then [.str "a=rtcp-mux"] else [])
        ++ (desc.encryption.getD []).map cryptoLine
        ++ (desc.payloads.getD []).flatMap payloadLines
        ++ (desc.feedback.getD []).map descFeedbackLine
        ++ (desc.headerExtensions.getD []).map extmapLine := by
  unfold rawLinesBeforeSources transportLines
  simp only [h, foldl_push_map, foldl_payloadStep]
  rcases hfb : desc.feedback with _ | fbs <;>
    by_cases hu : truthy transport.ufrag = true <;>
    by_cases hp : truthy transport.pwd = true <;>
    by_cases hs : truthy transport.setup = true <;>
    by_cases hm : truthy desc.mux = true <;>
    simp [hu, hp, hs, hm, foldl_push_map, push]

theorem toMediaSDPRawLines_ok (content : RawContent) (desc : RawDescription)
    (transport : Transport)
    (hd : content.description = some desc) (ht : content.transport = some transport)
    (hg : ∀ ssrcGroup ∈ desc.sourceGroups.getD [], ssrcGroup.sources ≠ none)
    (hs : ∀ ssrc ∈ desc.sources.getD [], ssrc.parameters ≠ none) :
    toMediaSDPRawLines content = .ok (emissionOrder (content.toContent desc) transport) := by
  unfold toMediaSDPRawLines
  simp only [hd, foldlM_rawGroupStep_ok _ _ hg, foldlM_rawSourceStep_ok desc _ _ hs, ht,
    foldl_push_map, rawLinesBeforeSources_eq content desc transport ht]
  unfold emissionOrder
  rcases hsg : desc.sourceGroups with _ | groups <;>
    rcases hss : desc.sources with _ | sources <;>
    simp [RawContent.toContent, RawDescription.toDescription, hsg, hss, List.flatMap_map,
      Function.comp_def]

theorem toMediaSDPRaw_fieldless :
    toMediaSDPRaw fieldlessRaw
      = .ok ("m= 1 RTP/AVPF \r\nc=IN IP4 0.0.0.0\r\na=rtcp:1 IN IP4 0.0.0.0\r\n"
          ++ "a=sendrecv\r\na=mid:undefined\r\na=rtpmap:undefined undefined/undefined") := by
  rfl

theorem toMediaSDPRaw_full :
    toMediaSDPRaw fullRaw
      = .ok ("m=video 1 RTP/AVPF 100\r\nc=IN IP4 0.0.0.0\r\na=rtcp:1 IN IP4 0.0.0.0\r\n"
          ++ "a=sendonly\r\na=mid:video\r\na=rtpmap:100 VP8/90000\r\n"
          ++ "a=ssrc-group:FID 1 2\r\na=ssrc:1 cname:c") := by
  rfl

theorem toMediaSDPRaw_no_parameters :
    toMediaSDPRaw noParametersRaw
      = .error (.typeError "Cannot read property \x27length\x27 of undefined") := by
  rfl

theorem toMediaSDPRaw_no_sources :
    toMediaSDPRaw noSourcesRaw
      = .error (.typeError "Cannot read property \x27join\x27 of undefined") := by
  rfl

/-- C12, as stated, fails: a content without a name is structurally invalid,
yet `toMediaSDP` returns wire text for it, with the line `a=mid:undefined`. -/
theorem missing_field_not_rejected :
    ¬ ∀ content : RawContent, missingRequired content = true →
        ∃ e, toMediaSDPRaw content = .error e := by
  intro h
  obtain ⟨e, he⟩ := h namelessRaw rfl
  have hok : toMediaSDPRaw namelessRaw
      = .ok ("m=audio 1 RTP/AVPF 111\r\nc=IN IP4 0.0.0.0\r\na=rtcp:1 IN IP4 0.0.0.0\r\n"
          ++ "a=sendrecv\r\na=mid:undefined\r\na=rtpmap:111 opus/48000/2") := rfl
  rw [hok] at he
  cases he

/-- C12, amended: for every content that has a transport, `toMediaSDP` fails
with an error exactly when the description is missing, or a source group of
the description has no `sources`, or a source of the description has no
`parameters`. In every other case it returns the wire text of the media
section, whether or not the content name, the media kind or a payload's id,
name or clockrate is missing: none of these is validated, and a missing one is
rendered as the text `undefined` (as an empty token on the m-line). -/
theorem toMediaSDPRaw_fault_iff (content : RawContent) (transport : Transport)
    (h : content.transport = some transport) :
    ((∃ e, toMediaSDPRaw content = .error e)
      ↔ (content.description = none
        ∨ ∃ desc, content.description = some desc
            ∧ ((∃ ssrcGroup ∈ desc.sourceGroups.getD [], ssrcGroup.sources = none)
              ∨ ∃ ssrc ∈ desc.sources.getD [], ssrc.parameters = none)))
    ∧ ∀ desc, content.description = some desc →
        (∀ ssrcGroup ∈ desc.sourceGroups.getD [], ssrcGroup.sources ≠ none) →
        (∀ ssrc ∈ desc.sources.getD [], ssrc.parameters ≠ none) →
        toMediaSDPRaw content
          = .ok (join "\r\n" (emissionOrder (content.toContent desc) transport)) := by
  have hsome : ∀ desc, content.description = some desc →
      (∀ ssrcGroup ∈ desc.sourceGroups.getD [], ssrcGroup.sources ≠ none) →
      (∀ ssrc ∈ desc.sources.getD [], ssrc.parameters ≠ none) →
      toMediaSDPRaw content
        = .ok (join "\r\n" (emissionOrder (content.toContent desc) transport)) := by
    intro desc hd hg hs
    unfold toMediaSDPRaw
    rw [toMediaSDPRawLines_ok content desc transport hd h hg hs]
  refine ⟨?_, hsome⟩
  rcases hd : content.description with _ | desc
  · simp [toMediaSDPRaw, toMediaSDPRawLines, hd]
  · by_cases hg : ∃ ssrcGroup ∈ desc.sourceGroups.getD [], ssrcGroup.sources = none
    · have herr : toMediaSDPRaw content
          = .error (.typeError "Cannot read property \x27join\x27 of undefined") := by
        unfold toMediaSDPRaw toMediaSDPRawLines
        simp only [hd, foldlM_rawGroupStep_error _ _ hg]
      constructor
      · intro _
        exact Or.inr ⟨desc, rfl, Or.inl hg⟩
      · intro _
        exact ⟨_, herr⟩
    · have hg2 : ∀ ssrcGroup ∈ desc.sourceGroups.getD [], ssrcGroup.sources ≠ none :=
        fun g hmem hnone => hg ⟨g, hmem, hnone⟩
      by_cases hs : ∃ ssrc ∈ desc.sources.getD [], ssrc.parameters = none
      · have herr : toMediaSDPRaw content
            = .error (.typeError "Cannot read property \x27length\x27 of undefined") := by
          unfold toMediaSDPRaw toMediaSDPRawLines
          simp only [hd, foldlM_rawGroupStep_ok _ _ hg2, foldlM_rawSourceStep_error desc _ _ hs]
        constructor
        · intro _
          exact Or.inr ⟨desc, rfl, Or.inr hs⟩
        · intro _
          exact ⟨_, herr⟩
      · have hs2 : ∀ ssrc ∈ desc.sources.getD [], ssrc.parameters ≠ none :=
          fun g hmem hnone => hs ⟨g, hmem, hnone⟩
        constructor
        · rintro ⟨e, he⟩
          rw [hsome desc hd hg2 hs2] at he
          cases he
        · rintro (hnone | ⟨desc2, hd2, hbad⟩)
          · cases hnone
          · cases Option.some.inj hd2
            rcases hbad with hbad | hbad
            · exact absurd hbad hg
            · exact absurd hbad hs

/-- The amended C12 at a content with a transport and no description, which
faults. -/
theorem toMediaSDPRaw_fault_iff_witness :
    ∃ e, toMediaSDPRaw noDescriptionRaw = .error e :=
  (toMediaSDPRaw_fault_iff noDescriptionRaw {} rfl).1.2 (Or.inl rfl)

/-! ## C13 and C14: the related-address group of a candidate line -/

theorem join_cons_of_ne_nil (sep : String) (v : JSValue) (rest : List JSValue)
    (h : rest ≠ []) :
    join sep (v :: rest) = joinElem v ++ sep ++ join sep rest := by
  cases rest with
  | nil => exact absurd rfl h
  | cons w more => rfl

theorem joinElem_infix_join (sep : String) (before after : List JSValue) (x : JSValue) :
    (joinElem x).data <:+: (join sep (before ++ x :: after)).data := by
  induction before with
  | nil =>
    cases after with
    | nil => exact List.infix_refl _
    | cons w more =>
      rw [List.nil_append, join_cons_of_ne_nil sep x (w :: more) (List.cons_ne_nil _ _)]
      exact ⟨[], (sep ++ join sep (w :: more)).data, by simp [String.append_assoc]⟩
  | cons p ps ih =>
    rw [List.cons_append, join_cons_of_ne_nil sep p (ps ++ x :: after) (by simp)]
    refine List.IsInfix.trans ih ?_
    exact ⟨(joinElem p ++ sep).data, [], by simp⟩

theorem toCandidateSDP_eq_byTruth (candidate : Candidate) :
    toCandidateSDP candidate
      = "a=candidate:" ++ join " " (candidateTokensByTruth candidate) := by
  unfold toCandidateSDP candidateTokensByTruth
  by_cases ht : candidate.type = .str "srflx" ∨ candidate.type = .str "prflx"
      ∨ candidate.type = .str "relay"
  · by_cases ha : truthy candidate.relAddr = true
    · by_cases hp : truthy candidate.relPort = true <;>
        by_cases hg : truthy candidate.generation = true <;>
        simp [ht, ha, hp, hg, push, andAlso, orElse]
    · by_cases hg : truthy candidate.generation = true <;>
        simp [ht, ha, hg, push, andAlso, orElse]
  · by_cases hg : truthy candidate.generation = true <;>
      simp [ht, hg, push, andAlso, orElse]

/-- C13, as stated, fails: the relay candidate with the related address
`1.2.3.4` and the related port `0` has both related fields present, yet its
line holds no `raddr` token group at all. -/
theorem related_group_presence_fails :
    ¬ ∀ candidate : Candidate,
        (candidate.type = .str "srflx" ∨ candidate.type = .str "prflx"
          ∨ candidate.type = .str "relay") →
        isPresent candidate.relAddr = true → isPresent candidate.relPort = true →
        ∃ before after : List JSValue,
          toCandidateSDP candidate
            = "a=candidate:" ++ join " "
                (before ++ [.str "raddr", candidate.relAddr, .str "rport", candidate.relPort,
                  .str "generation"] ++ after) := by
  intro h
  obtain ⟨before, after, heq⟩ := h relayZeroPort (Or.inr (Or.inr rfl)) rfl rfl
  have hin : "raddr".data <:+: (toCandidateSDP relayZeroPort).data := by
    rw [heq, List.append_assoc, String.data_append]
    exact (joinElem_infix_join " " before
        (relayZeroPort.relAddr :: .str "rport" :: relayZeroPort.relPort
          :: .str "generation" :: after) (.str "raddr")).trans
      ⟨"a=candidate:".data, [], by simp⟩
  have hline : toCandidateSDP relayZeroPort
      = "a=candidate:1 1 udp 2130706431 10.0.0.1 54321 typ relay generation 0" := rfl
  rw [hline] at hin
  revert hin
  decide

/-- C13, amended: for every candidate whose type is srflx, prflx or relay and
whose relAddr and relPort are both truthy (present and neither `0` nor empty),
the line returned by `toCandidateSDP` holds the token group
`raddr <relAddr> rport <relPort>` once, right after the type and immediately
followed by the `generation` token. -/
theorem related_group_once (candidate : Candidate)
    (ht : candidate.type = .str "srflx" ∨ candidate.type = .str "prflx"
      ∨ candidate.type = .str "relay")
    (ha : truthy candidate.relAddr = true) (hp : truthy candidate.relPort = true) :
    toCandidateSDP candidate
      = "a=candidate:" ++ join " "
          [candidate.foundation, candidate.component, candidate.protocol, candidate.priority,
            candidate.ip, candidate.port, .str "typ", candidate.type,
            .str "raddr", candidate.relAddr, .str "rport", candidate.relPort,
            .str "generation", orElse candidate.generation (.str "0")] := by
  rw [toCandidateSDP_eq_byTruth]
  unfold candidateTokensByTruth orElse
  by_cases hg : truthy candidate.generation = true <;> simp [ht, ha, hp, hg]

/-- The amended C13 at the relay candidate of the specification's scenario. -/
theorem related_group_once_witness :
    toCandidateSDP relayCandidate
      = "a=candidate:" ++ join " "
          [relayCandidate.foundation, relayCandidate.component, relayCandidate.protocol,
            relayCandidate.priority, relayCandidate.ip, relayCandidate.port, .str "typ",
            relayCandidate.type, .str "raddr", relayCandidate.relAddr, .str "rport",
            relayCandidate.relPort, .str "generation",
            orElse relayCandidate.generation (.str "0")] :=
  related_group_once relayCandidate (Or.inr (Or.inr rfl)) rfl rfl

/-- C14: for every candidate of type host, whatever its relAddr and relPort
fields hold, the line returned by `toCandidateSDP` is made of the six leading
fields, `typ host`, `generation` and the generation: the code emits no `raddr`
token and no `rport` token, and neither related field reaches the line. -/
theorem host_no_related_group (candidate : Candidate) (ht : candidate.type = .str "host") :
    toCandidateSDP candidate
      = "a=candidate:" ++ join " "
          [candidate.foundation, candidate.component, candidate.protocol, candidate.priority,
            candidate.ip, candidate.port, .str "typ", .str "host",
            .str "generation", orElse candidate.generation (.str "0")] := by
  rw [toCandidateSDP_eq_byTruth]
  unfold candidateTokensByTruth orElse
  by_cases hg : truthy candidate.generation = true <;> simp [ht, hg]

/-- C14 at a host candidate whose related address and port are populated: the
line is `a=candidate:1 1 udp 2130706431 10.0.0.1 54321 typ host generation 0`. -/
theorem host_no_related_group_witness :
    toCandidateSDP hostCandidate
      = "a=candidate:" ++ join " "
          [hostCandidate.foundation, hostCandidate.component, hostCandidate.protocol,
            hostCandidate.priority, hostCandidate.ip, hostCandidate.port, .str "typ",
            .str "host", .str "generation", orElse hostCandidate.generation (.str "0")] :=
  host_no_related_group hostCandidate rfl

/-! ## C15: description-level feedback -/

theorem descFeedbackLine_trrInt (fb : Feedback) (h : fb.type = .str "trr-int") :
    descFeedbackLine fb = fb.value := by
  unfold descFeedbackLine
  have hne : ("a=rtcp-fb:* trr-int " ++ toStr fb.value) ≠ "" := by
    intro hcon
    have hlen := congrArg String.length hcon
    simp [String.length_append] at hlen
    exact absurd hlen.1 (by decide)
  simp [h, truthy, hne]

theorem descFeedbackLine_generic (fb : Feedback) (h : fb.type ≠ .str "trr-int") :
    descFeedbackLine fb
      = .str ("a=rtcp-fb:* " ++ toStr fb.type
          ++ (if truthy fb.subtype then " " ++ toStr fb.subtype else "")) := by
  unfold descFeedbackLine
  simp [h]

/-- C15: the specification asks for the line `a=rtcp-fb:* trr-int 0` for the
description-level feedback entry `{type: "trr-int", value: 0}`. The code emits
the bare value `0` as that line: line 115 has the operator precedence of line
104, so the concatenation is the condition of `?:` and the value alone is
pushed. -/
theorem toMediaSDP_desc_trrInt_line :
    toMediaSDP descTrrIntContent
      = .ok ("m=audio 1 RTP/AVPF 111\r\nc=IN IP4 0.0.0.0\r\na=rtcp:1 IN IP4 0.0.0.0\r\n"
          ++ "a=sendrecv\r\na=mid:audio\r\na=rtpmap:111 opus/48000/2\r\n0") := by
  rfl

/-! ## C16: the ssrc lines -/

/-- C16, as stated, fails: a source whose own ssrc is the number `0` has one,
yet its line names the default ssrc `5` of the description. -/
theorem ssrc_presence_fails :
    ¬ ∀ (content : Content) (lines : List JSValue) (source : Source) (param : Parameter),
        toMediaSDPLines content = .ok lines →
        source ∈ content.description.sources.getD [] →
        param ∈ source.parameters →
        .str ("a=ssrc:"
          ++ toStr (if isPresent source.ssrc = true then source.ssrc
              else content.description.ssrc)
          ++ " " ++ toStr param.key
          ++ (if truthy param.value = true then ":" ++ toStr param.value else "")) ∈ lines := by
  intro h
  have h0 := h zeroSsrcContent
    [.str "m=audio 1 RTP/AVPF 111", .str "c=IN IP4 0.0.0.0", .str "a=rtcp:1 IN IP4 0.0.0.0",
      .str "a=sendrecv", .str "a=mid:audio", .str "a=rtpmap:111 opus/48000/2",
      .str "a=ssrc:5 cname:c"]
    { ssrc := .num 0, parameters := [{ key := .str "cname", value := .str "c" }] }
    { key := .str "cname", value := .str "c" }
    rfl (List.mem_singleton.2 rfl) (List.mem_singleton.2 rfl)
  revert h0
  decide

/-- C16, amended: for every content with a transport, the lines that precede
the candidate lines are, for every source of the description in order and
every parameter of that source in declaration order, one line
`a=ssrc:<S> <key>` followed by `:<value>` only when the value is truthy, where
S is the source's own ssrc when that is truthy (present and neither `0` nor
empty) and the description's default ssrc otherwise; a source with no
parameters contributes no line. -/
theorem ssrc_lines (content : Content) (transport : Transport)
    (h : content.transport = some transport) :
    ∃ before : List JSValue,
      toMediaSDPLines content
        = .ok (before
            ++ (content.description.sources.getD []).flatMap
                (fun source =>
                  source.parameters.map
                    (fun param =>
                      .str ("a=ssrc:"
                        ++ toStr (if truthy source.ssrc = true then source.ssrc
                            else content.description.ssrc)
                        ++ " " ++ toStr param.key
                        ++ (if truthy param.value = true then ":" ++ toStr param.value
                            else ""))))
            ++ (transport.candidates.getD []).map
                (fun candidate => .str (toCandidateSDP candidate))) := by
  rw [toMediaSDPLines_of_transport content transport h]
  exact ⟨_, rfl⟩

/-- The amended C16 at the content that has every segment. -/
theorem ssrc_lines_witness :
    ∃ before : List JSValue,
      toMediaSDPLines fullContent
        = .ok (before
            ++ (fullContent.description.sources.getD []).flatMap
                (fun source =>
                  source.parameters.map
                    (fun param =>
                      .str ("a=ssrc:"
                        ++ toStr (if truthy source.ssrc = true then source.ssrc
                            else fullContent.description.ssrc)
                        ++ " " ++ toStr param.key
                        ++ (if truthy param.value = true then ":" ++ toStr param.value
                            else ""))))
            ++ (fullTransport.candidates.getD []).map
                (fun candidate => .str (toCandidateSDP candidate))) :=
  ssrc_lines fullContent fullTransport rfl

/-! ## C17: the fmtp line -/

theorem fmtpToken_eq (param : Parameter) :
    fmtpToken param = .str (fmtpParamBySpec param) := by
  unfold fmtpToken fmtpParamBySpec
  by_cases hk : truthy param.key = true <;> simp [hk]

theorem join_space_strings (first : String) (params : List Parameter) :
    join " " (.str first :: params.map fmtpToken)
      = first ++ concatAll (params.map (fun q => " " ++ fmtpParamBySpec q)) := by
  induction params generalizing first with
  | nil => simp [join, joinElem, toStr, concatAll]
  | cons q qs ih =>
    rw [List.map_cons, join_cons_of_ne_nil " " _ _ (List.cons_ne_nil _ _), fmtpToken_eq, ih]
    simp [joinElem, toStr, concatAll, String.append_assoc]

theorem fmtpLines_eq_bySpec (payload : Payload) : fmtpLines payload = fmtpBySpec payload := by
  unfold fmtpLines fmtpBySpec
  rcases hp : payload.parameters with _ | params
  · rfl
  · cases params with
    | nil => rfl
    | cons q qs =>
      simp only [fmtpLine, foldl_push_map]
      rw [List.singleton_append, join_space_strings]

theorem block_within (outer inner block rest tail : List JSValue) :
    outer ++ (inner ++ block ++ rest) ++ tail = (outer ++ inner) ++ block ++ (rest ++ tail) := by
  simp only [List.append_assoc]

theorem flatMap_payload_block (payloads : List Payload) (payload : Payload)
    (hp : payload ∈ payloads) :
    ∃ earlier later : List JSValue,
      payloads.flatMap payloadLines = earlier ++ payloadLines payload ++ later := by
  obtain ⟨before, after, rfl⟩ := List.append_of_mem hp
  exact ⟨before.flatMap payloadLines, after.flatMap payloadLines, by
    simp [List.flatMap_append, List.append_assoc]⟩

theorem emissionOrder_payload_segment (content : Content) (transport : Transport) :
    emissionOrder content transport
      = ([.str ("m=" ++ join " "
              (mlineTokens content.description (transport.fingerprints.getD []))),
            .str "c=IN IP4 0.0.0.0", .str "a=rtcp:1 IN IP4 0.0.0.0"]
          ++ transportLines transport
          ++ [directionLine content, .str ("a=mid:" ++ toStr content.name)]
          ++ (if truthy content.description.mux then [.str "a=rtcp-mux"] else [])
          ++ (content.description.encryption.getD []).map cryptoLine)
        ++ (content.description.payloads.getD []).flatMap payloadLines
        ++ ((content.description.feedback.getD []).map descFeedbackLine
          ++ (content.description.headerExtensions.getD []).map extmapLine
          ++ (content.description.sourceGroups.getD []).map ssrcGroupLine
          ++ (content.description.sources.getD []).flatMap
              (fun ssrc => ssrc.parameters.map (ssrcLine content.description ssrc))
          ++ (transport.candidates.getD []).map
              (fun candidate => .str (toCandidateSDP candidate))) := by
  unfold emissionOrder
  simp only [List.append_assoc]

/-- C17: for every payload of a content on which `toMediaSDP` returns, the
lines of that payload are its rtpmap line, then its fmtp line, then its
feedback lines, where the fmtp line is: for a non-empty parameter list exactly
one line `a=fmtp:<id>` followed by the parameters in order, each preceded by a
single space and rendered as `key=value` when it has a key (a truthy, that is
non-empty, key) and as the bare `value` when it has none; for an absent or
empty parameter list no line. -/
theorem fmtp_line (content : Content) (lines : List JSValue) (payload : Payload)
    (h : toMediaSDPLines content = .ok lines)
    (hp : payload ∈ content.description.payloads.getD []) :
    ∃ before after : List JSValue,
      lines = before
        ++ (rtpmapLine payload
            :: (fmtpBySpec payload
                ++ (payload.feedback.getD []).map (payloadFeedbackLine payload)))
        ++ after := by
  obtain ⟨transport, _, rfl⟩ := (toMediaSDPLines_ok_iff content lines).1 h
  obtain ⟨earlier, later, hblock⟩ :=
    flatMap_payload_block (content.description.payloads.getD []) payload hp
  have hpl : payloadLines payload
      = rtpmapLine payload
          :: (fmtpBySpec payload
              ++ (payload.feedback.getD []).map (payloadFeedbackLine payload)) := by
    unfold payloadLines
    rw [fmtpLines_eq_bySpec]
  rw [emissionOrder_payload_segment, hblock, hpl, block_within]
  exact ⟨_, _, rfl⟩

/-- C17 at the VP8 payload of the content that has every segment: its lines
are `a=rtpmap:100 VP8/90000`, `a=fmtp:100 max-fs=12288 x` and two feedback
lines. -/
theorem fmtp_line_witness :
    ∃ before after : List JSValue,
      emissionOrder fullContent fullTransport = before
        ++ ([.str "a=rtpmap:100 VP8/90000", .str "a=fmtp:100 max-fs=12288 x",
              .str "a=rtcp-fb:100 nack pli", .str "a=rtcp-fb:100 ccm"] : List JSValue)
        ++ after :=
  fmtp_line fullContent (emissionOrder fullContent fullTransport)
    { id := .num 100, name := .str "VP8", clockrate := .num 90000,
      parameters := some [{ key := .str "max-fs", value := .num 12288 }, { value := .str "x" }],
      feedback := some [{ type := .str "nack", subtype := .str "pli" }, { type := .str "ccm" }] }
    (toMediaSDPLines_of_transport fullContent fullTransport rfl)
    (List.mem_cons_self _ _)

/-! ## C18: the transport attribute lines -/

theorem emissionOrder_split (content : Content) (transport : Transport) :
    emissionOrder content transport
      = [.str ("m=" ++ join " "
            (mlineTokens content.description (transport.fingerprints.getD []))),
          .str "c=IN IP4 0.0.0.0", .str "a=rtcp:1 IN IP4 0.0.0.0"]
        ++ transportLines transport
        ++ directionLine content :: afterDirection content transport := by
  unfold emissionOrder afterDirection
  simp only [List.append_assoc, List.cons_append, List.nil_append]

/-- C18, as stated, fails: a transport whose setup is the empty string has a
setup that is present, yet no `a=setup:` line is emitted for it. -/
theorem setup_presence_fails :
    ¬ ∀ (content : Content) (transport : Transport) (lines : List JSValue),
        content.transport = some transport →
        toMediaSDPLines content = .ok lines →
        isPresent transport.setup = true →
        .str ("a=setup:" ++ toStr transport.setup) ∈ lines := by
  intro h
  have h0 := h emptySetupContent { setup := .str "" }
    [.str "m=audio 1 RTP/AVPF 111", .str "c=IN IP4 0.0.0.0", .str "a=rtcp:1 IN IP4 0.0.0.0",
      .str "a=sendrecv", .str "a=mid:audio", .str "a=rtpmap:111 opus/48000/2"]
    rfl rfl rfl
  revert h0
  decide

/-- C18, amended: for every content with a transport, the lines between the
three fixed lines and the sender-direction line are `a=ice-ufrag:<ufrag>` if
and only if ufrag is present and non-empty (truthy), `a=ice-pwd:<pwd>` if and
only if pwd is present and non-empty, `a=setup:<setup>` if and only if setup is
present and non-empty, and then exactly one `a=fingerprint:<hash> <value>`
line per fingerprint in input order; no attribute line is printed for an
absent or empty field. -/
theorem transport_lines (content : Content) (transport : Transport)
    (h : content.transport = some transport) :
    ∃ (mline : JSValue) (after : List JSValue),
      toMediaSDPLines content
        = .ok ([mline, .str "c=IN IP4 0.0.0.0", .str "a=rtcp:1 IN IP4 0.0.0.0"]
            ++ (if truthy transport.ufrag = true then
                  [.str ("a=ice-ufrag:" ++ toStr transport.ufrag)] else [])
            ++ (if truthy transport.pwd = true then
                  [.str ("a=ice-pwd:" ++ toStr transport.pwd)] else [])
            ++ (if truthy transport.setup = true then
                  [.str ("a=setup:" ++ toStr transport.setup)] else [])
            ++ (transport.fingerprints.getD []).map
                (fun fingerprint =>
                  .str ("a=fingerprint:" ++ toStr fingerprint.hash ++ " "
                    ++ toStr fingerprint.value))
            ++ directionLine content :: after) := by
  rw [toMediaSDPLines_of_transport content transport h, emissionOrder_split]
  refine ⟨.str ("m=" ++ join " "
      (mlineTokens content.description (transport.fingerprints.getD []))),
    afterDirection content transport, ?_⟩
  unfold transportLines
  simp only [List.append_assoc]
  rfl

/-- The amended C18 at the content that has every transport attribute. -/
theorem transport_lines_witness :
    ∃ (mline : JSValue) (after : List JSValue),
      toMediaSDPLines fullContent
        = .ok ([mline, .str "c=IN IP4 0.0.0.0", .str "a=rtcp:1 IN IP4 0.0.0.0"]
            ++ (if truthy fullTransport.ufrag = true then
                  [.str ("a=ice-ufrag:" ++ toStr fullTransport.ufrag)] else [])
            ++ (if truthy fullTransport.pwd = true then
                  [.str ("a=ice-pwd:" ++ toStr fullTransport.pwd)] else [])
            ++ (if truthy fullTransport.setup = true then
                  [.str ("a=setup:" ++ toStr fullTransport.setup)] else [])
            ++ (fullTransport.fingerprints.getD []).map
                (fun fingerprint =>
                  .str ("a=fingerprint:" ++ toStr fingerprint.hash ++ " "
                    ++ toStr fingerprint.value))
            ++ directionLine fullContent :: after) :=
  transport_lines fullContent fullTransport rfl

/-! ## C19: determinism -/

theorem originByTruth_congr (clock₁ clock₂ : Clock) (session : Session) (sid time : JSValue)
    (h : (truthy sid = true ∧ truthy time = true)
      ∨ (clock₁ 0 = clock₂ 0 ∧ clock₁ 1 = clock₂ 1)) :
    originByTruth clock₁ session sid time = originByTruth clock₂ session sid time := by
  unfold originByTruth
  rcases h with ⟨hs, ht⟩ | ⟨h0, h1⟩
  · simp [hs, ht]
  · simp [h0, h1]

/-- C19, as stated, fails: with the explicit arguments `sid = 0` and
`time = 0`, two calls on the same session whose clocks read `1234` and `2234`
return different text (`o=- 1234 1234 ...` and `o=- 2234 2234 ...`). -/
theorem explicit_zero_not_deterministic :
    ¬ ∀ (clock₁ clock₂ : Clock) (session : Session) (sid time : JSValue),
        isPresent sid = true → isPresent time = true →
        toSessionSDP clock₁ session sid time = toSessionSDP clock₂ session sid time := by
  intro h
  have h0 := h frozenClock laterClock bareSession (.num 0) (.num 0) rfl rfl
  have h1 : toSessionSDP frozenClock bareSession (.num 0) (.num 0)
      = .ok "v=0\r\no=- 1234 1234 IN IP4 0.0.0.0\r\ns=-\r\nt=0 0\r\n" := rfl
  have h2 : toSessionSDP laterClock bareSession (.num 0) (.num 0)
      = .ok "v=0\r\no=- 2234 2234 IN IP4 0.0.0.0\r\ns=-\r\nt=0 0\r\n" := rfl
  rw [h1, h2] at h0
  exact absurd (Except.ok.inj h0) (by decide)

/-- C19, amended: for every session, two calls of `toSessionSDP` on the same
input return the same result whenever the sid and time arguments are given
and truthy (non-empty strings or non-zero numbers), whatever the clocks read,
and whenever the two clocks agree on the readings a call can take (as with
the same frozen current-time value). The embeddings of `toMediaSDP` and
`toCandidateSDP` have no argument but the content and the candidate: the
source reads nothing else. -/
theorem session_deterministic (clock₁ clock₂ : Clock) (session : Session)
    (sid time : JSValue)
    (h : (truthy sid = true ∧ truthy time = true)
      ∨ (clock₁ 0 = clock₂ 0 ∧ clock₁ 1 = clock₂ 1)) :
    toSessionSDP clock₁ session sid time = toSessionSDP clock₂ session sid time := by
  unfold toSessionSDP
  rw [toSessionSDPLines_eq, toSessionSDPLines_eq, originLine_eq, originLine_eq,
    originByTruth_congr clock₁ clock₂ session sid time h]

/-- The amended C19 at the session `abc` with the arguments `7` and `9` and two
clocks that read `1234` and `2234`. -/
theorem session_deterministic_witness :
    toSessionSDP frozenClock abcSession (.num 7) (.num 9)
      = toSessionSDP laterClock abcSession (.num 7) (.num 9) :=
  session_deterministic frozenClock laterClock abcSession (.num 7) (.num 9)
    (Or.inl ⟨rfl, rfl⟩)

/-! ## C20: the role table as an involution -/

theorem sendersGet_round_trip (key : String)
    (h : key ∈ ["responder", "both", "none", "recvonly", "sendrecv", "inactive"]) :
    sendersGet (sendersGet (.str key)) = .str key := by
  simp only [List.mem_cons, List.mem_singleton, List.not_mem_nil, or_false] at h
  rcases h with rfl | rfl | rfl | rfl | rfl | rfl <;> rfl

/-- C20: the specification's table is an involution on its eight keys. In the
code the entry of line 6 is misspelled (`'sendonly': 'initator'`), so two keys
do not come back: `initiator` goes to `sendonly` and on to `initator`, and
`sendonly` goes to `initator` and on to `undefined`. -/
theorem senders_not_involutive :
    sendersGet (sendersGet (.str "initiator")) = .str "initator"
      ∧ sendersGet (sendersGet (.str "sendonly")) = .undefined := by
  constructor <;> rfl

/-! ## C21: the payload ids of the m-line and the rtpmap lines -/

theorem startsWith_append_self (tag rest : List Char) : startsWith tag (tag ++ rest) = true := by
  induction tag with
  | nil => rfl
  | cons a tag ih => simp [startsWith, ih]

theorem head_of_startsWith_rtpmapTag (text : List Char)
    (h : startsWith rtpmapTag text = true) : text.head? = some 'a' := by
  cases text with
  | nil => cases h
  | cons b text =>
    have hb : ('a' == b) = true := by
      have h2 : (('a' == b) && startsWith "=rtpmap:".data text) = true := h
      exact (Bool.and_eq_true _ _ ▸ h2).1
    simp at hb
    simp [← hb]

theorem digitChar_ne_a (k : Nat) (h : k < 10) : Nat.digitChar k ≠ 'a' := by
  interval_cases k <;> decide

theorem toDigitsCore_no_a (fuel n : Nat) (ds : List Char) (hds : ∀ c ∈ ds, c ≠ 'a') :
    ∀ c ∈ Nat.toDigitsCore 10 fuel n ds, c ≠ 'a' := by
  induction fuel generalizing n ds with
  | zero => simpa [Nat.toDigitsCore] using hds
  | succ fuel ih =>
    have hcons : ∀ c ∈ Nat.digitChar (n % 10) :: ds, c ≠ 'a' := by
      intro c hc
      rcases List.mem_cons.1 hc with rfl | hc
      · exact digitChar_ne_a _ (Nat.mod_lt _ (by decide))
      · exact hds c hc
    simp only [Nat.toDigitsCore]
    split
    · exact hcons
    · exact ih _ _ hcons

theorem repr_no_a (n : Nat) : ∀ c ∈ (Nat.repr n).data, c ≠ 'a' := by
  intro c hc
  exact toDigitsCore_no_a (n + 1) n [] (by simp) c hc

theorem num_not_rtpmap (n : Int) : isRtpmapLine (.num n) = false := by
  cases hstart : isRtpmapLine (.num n) with
  | false => rfl
  | true =>
    have hhead := head_of_startsWith_rtpmapTag _ hstart
    have hmem : 'a' ∈ (joinElem (.num n)).data := List.mem_of_mem_head? hhead
    cases n with
    | ofNat m => exact absurd rfl (repr_no_a m 'a' hmem)
    | negSucc m =>
      have hmem2 : 'a' ∈ '-' :: (Nat.repr (m + 1)).data := hmem
      rcases List.mem_cons.1 hmem2 with hdash | hrest
      · exact absurd hdash (by decide)
      · exact absurd rfl (repr_no_a (m + 1) 'a' hrest)

theorem mem_ite_singleton {c : Prop} [Decidable c] (x line : JSValue)
    (h : line ∈ (if c then [x] else [])) : line = x := by
  split at h
  · exact List.mem_singleton.1 h
  · cases h

theorem lookup_mem_values {β : Type} (table : List (String × β)) (key : String) (v : β)
    (h : table.lookup key = some v) : v ∈ table.map Prod.snd := by
  induction table with
  | nil => cases h
  | cons entry more ih =>
    obtain ⟨k, w⟩ := entry
    rw [List.lookup_cons] at h
    split at h
    · simp only [Option.some.injEq] at h
      simp [h]
    · simp [ih h]

theorem directionLine_not_rtpmap (content : Content) :
    isRtpmapLine (directionLine content) = false := by
  have hinherit : ∀ v ∈ objectPrototype.map Prod.snd,
      isRtpmapLine (.str ("a=" ++ toStr (orElse v (.str "sendrecv")))) = false := by
    decide
  have htable : ∀ token ∈ senders.map Prod.snd,
      isRtpmapLine (.str ("a=" ++ toStr (orElse (.str token) (.str "sendrecv")))) = false := by
    decide
  unfold directionLine sendersGet
  rcases hown : senders.lookup (toStr content.senders) with _ | token
  · rcases hinh : objectPrototype.lookup (toStr content.senders) with _ | inherited
    · rfl
    · exact hinherit inherited (lookup_mem_values objectPrototype _ _ hinh)
  · exact htable token (lookup_mem_values senders _ _ hown)

theorem transportLines_not_rtpmap (transport : Transport) (line : JSValue)
    (h : line ∈ transportLines transport) : isRtpmapLine line = false := by
  unfold transportLines at h
  simp only [List.mem_append, List.mem_map] at h
  rcases h with ((h | h) | h) | ⟨fingerprint, _, rfl⟩
  · rw [mem_ite_singleton _ _ h]
    rfl
  · rw [mem_ite_singleton _ _ h]
    rfl
  · rw [mem_ite_singleton _ _ h]
    rfl
  · rfl

theorem rtpmapLine_is_rtpmap (payload : Payload) : isRtpmapLine (rtpmapLine payload) = true := by
  unfold rtpmapLine
  split <;> rfl

theorem rtpmapLine_names_id (payload : Payload) :
    ∃ rest : String,
      rtpmapLine payload = .str ("a=rtpmap:" ++ toStr payload.id ++ " " ++ rest) := by
  unfold rtpmapLine
  split
  · exact ⟨toStr payload.name ++ "/" ++ toStr payload.clockrate ++ "/" ++ toStr payload.channels,
      by simp only [String.append_assoc]⟩
  · exact ⟨toStr payload.name ++ "/" ++ toStr payload.clockrate,
      by simp only [String.append_assoc]⟩

theorem typed_value_not_rtpmap (v : JSValue) (h : numericOrAbsent v = true) :
    isRtpmapLine v = false := by
  cases v with
  | undefined => rfl
  | num n => exact num_not_rtpmap n
  | null => cases h
  | bool b => cases h
  | str s => cases h
  | obj text => cases h

theorem payloadFeedbackLine_not_rtpmap (payload : Payload) (fb : Feedback)
    (h : feedbackTyped fb = true) : isRtpmapLine (payloadFeedbackLine payload fb) = false := by
  by_cases ht : fb.type = .str "trr-int"
  · rw [payloadFeedbackLine_trrInt payload fb ht]
    have hv : numericOrAbsent fb.value = true := by
      simpa [feedbackTyped, ht] using h
    exact typed_value_not_rtpmap _ hv
  · unfold payloadFeedbackLine
    rw [if_neg ht]
    rfl

theorem descFeedbackLine_not_rtpmap (fb : Feedback) (h : feedbackTyped fb = true) :
    isRtpmapLine (descFeedbackLine fb) = false := by
  by_cases ht : fb.type = .str "trr-int"
  · rw [descFeedbackLine_trrInt fb ht]
    have hv : numericOrAbsent fb.value = true := by
      simpa [feedbackTyped, ht] using h
    exact typed_value_not_rtpmap _ hv
  · rw [descFeedbackLine_generic fb ht]
    rfl

theorem fmtpLines_not_rtpmap (payload : Payload) (line : JSValue)
    (h : line ∈ fmtpLines payload) : isRtpmapLine line = false := by
  rw [fmtpLines_eq_bySpec] at h
  unfold fmtpBySpec at h
  split at h
  · rw [List.mem_singleton.1 h]
    rfl
  · cases h

theorem filter_payloadLines (payload : Payload)
    (h : (payload.feedback.getD []).all feedbackTyped = true) :
    (payloadLines payload).filter isRtpmapLine = [rtpmapLine payload] := by
  unfold payloadLines
  rw [List.filter_cons_of_pos (rtpmapLine_is_rtpmap payload)]
  congr 1
  rw [List.filter_eq_nil_iff]
  intro line hl
  rw [List.all_eq_true] at h
  simp only [List.mem_append, List.mem_map] at hl
  rcases hl with hl | ⟨fb, hfb, rfl⟩
  · simp [fmtpLines_not_rtpmap payload line hl]
  · simp [payloadFeedbackLine_not_rtpmap payload fb (h fb hfb)]

theorem filter_flatMap_payloadLines (payloads : List Payload)
    (h : payloads.all (fun payload => (payload.feedback.getD []).all feedbackTyped) = true) :
    (payloads.flatMap payloadLines).filter isRtpmapLine = payloads.map rtpmapLine := by
  induction payloads with
  | nil => rfl
  | cons payload more ih =>
    simp only [List.all_cons, Bool.and_eq_true] at h
    rw [List.flatMap_cons, List.filter_append, filter_payloadLines payload h.1, ih h.2]
    rfl

theorem before_payloads_not_rtpmap (content : Content) (transport : Transport) :
    ([.str ("m=" ++ join " "
            (mlineTokens content.description (transport.fingerprints.getD []))),
          .str "c=IN IP4 0.0.0.0", .str "a=rtcp:1 IN IP4 0.0.0.0"]
        ++ transportLines transport
        ++ [directionLine content, .str ("a=mid:" ++ toStr content.name)]
        ++ (if truthy content.description.mux then [.str "a=rtcp-mux"] else [])
        ++ (content.description.encryption.getD []).map cryptoLine
          : List JSValue).filter isRtpmapLine
      = [] := by
  rw [List.filter_eq_nil_iff]
  intro line hl
  simp only [List.mem_append, List.mem_map, List.mem_cons, List.not_mem_nil, or_false] at hl
  have hfalse : isRtpmapLine line = false := by
    rcases hl with (((hl | hl) | hl) | hl) | ⟨crypto, _, rfl⟩
    · rcases hl with rfl | rfl | rfl <;> rfl
    · exact transportLines_not_rtpmap transport line hl
    · rcases hl with rfl | rfl
      · exact directionLine_not_rtpmap content
      · rfl
    · rw [mem_ite_singleton _ _ hl]
      rfl
    · rfl
  simp [hfalse]

theorem after_payloads_not_rtpmap (content : Content) (transport : Transport)
    (h : (content.description.feedback.getD []).all feedbackTyped = true) :
    ((content.description.feedback.getD []).map descFeedbackLine
        ++ (content.description.headerExtensions.getD []).map extmapLine
        ++ (content.description.sourceGroups.getD []).map ssrcGroupLine
        ++ (content.description.sources.getD []).flatMap
            (fun ssrc => ssrc.parameters.map (ssrcLine content.description ssrc))
        ++ (transport.candidates.getD []).map
            (fun candidate => .str (toCandidateSDP candidate))
          : List JSValue).filter isRtpmapLine
      = [] := by
  rw [List.filter_eq_nil_iff]
  intro line hl
  rw [List.all_eq_true] at h
  simp only [List.mem_append, List.mem_map, List.mem_flatMap] at hl
  have hfalse : isRtpmapLine line = false := by
    rcases hl with (((⟨fb, hfb, rfl⟩ | ⟨hdr, _, rfl⟩) | ⟨ssrcGroup, _, rfl⟩)
      | ⟨ssrc, _, param, _, rfl⟩) | ⟨candidate, _, rfl⟩
    · exact descFeedbackLine_not_rtpmap fb (h fb hfb)
    · rfl
    · rfl
    · rfl
    · rfl
  simp [hfalse]

/-- For every content on which `toMediaSDP` returns and whose `trr-int`
feedback values are numbers or absent, the m-line is `m=` followed by the
space-joined tokens media, `1`, the profile and then exactly the ids of the
description's payloads in input order; the elements of the joined array that
begin with `a=rtpmap:` are exactly one per payload, in the same order, and the
line of a payload begins with `a=rtpmap:<id> ` for the id of that payload; an
id that is present is rendered by the same text in both places. -/
theorem mline_ids_match_rtpmap (content : Content) (lines : List JSValue)
    (h : toMediaSDPLines content = .ok lines)
    (htyped : feedbackWellTyped content = true) :
    (∃ profile : String, (profile = "RTP/SAVPF" ∨ profile = "RTP/AVPF")
        ∧ lines.head? = some (.str ("m=" ++ join " "
            (content.description.media :: .str "1" :: .str profile
              :: (content.description.payloads.getD []).map (fun payload => payload.id)))))
    ∧ lines.filter isRtpmapLine = (content.description.payloads.getD []).map rtpmapLine
    ∧ (∀ payload : Payload, ∃ rest : String,
        rtpmapLine payload = .str ("a=rtpmap:" ++ toStr payload.id ++ " " ++ rest))
    ∧ (∀ payload : Payload, isPresent payload.id = true →
        joinElem payload.id = toStr payload.id) := by
  obtain ⟨transport, _, rfl⟩ := (toMediaSDPLines_ok_iff content lines).1 h
  unfold feedbackWellTyped at htyped
  rw [Bool.and_eq_true] at htyped
  refine ⟨?_, ?_, rtpmapLine_names_id, ?_⟩
  · by_cases hsec : content.description.encryption.getD [] ≠ []
        ∨ transport.fingerprints.getD [] ≠ []
    · exact ⟨"RTP/SAVPF", Or.inl rfl, by simp [emissionOrder, mlineTokens_secure _ _ hsec]⟩
    · have he : content.description.encryption.getD [] = [] := by
        by_contra hne
        exact hsec (Or.inl hne)
      have hf : transport.fingerprints.getD [] = [] := by
        by_contra hne
        exact hsec (Or.inr hne)
      exact ⟨"RTP/AVPF", Or.inr rfl, by simp [emissionOrder, mlineTokens_plain _ _ he hf]⟩
  · rw [emissionOrder_payload_segment, List.filter_append, List.filter_append,
      before_payloads_not_rtpmap, after_payloads_not_rtpmap content transport htyped.2,
      filter_flatMap_payloadLines _ htyped.1]
    simp only [List.nil_append, List.append_nil]
  · intro payload hid
    cases hv : payload.id with
    | undefined => rw [hv] at hid; cases hid
    | null => rw [hv] at hid; cases hid
    | bool b => rfl
    | num n => rfl
    | str t => rfl
    | obj text => rfl

/-- The statement above at the audio content whose payload 111 carries the
feedback entry `{type: "trr-int", value: 0}`: the only element that begins
with `a=rtpmap:` is the rtpmap line of payload 111. -/
theorem mline_ids_match_rtpmap_witness :
    ([.str "m=audio 1 RTP/AVPF 111", .str "c=IN IP4 0.0.0.0", .str "a=rtcp:1 IN IP4 0.0.0.0",
        .str "a=sendrecv", .str "a=mid:audio", .str "a=rtpmap:111 opus/48000/2",
        .num 0] : List JSValue).filter isRtpmapLine
      = (trrIntContent.description.payloads.getD []).map rtpmapLine :=
  (mline_ids_match_rtpmap trrIntContent _ rfl rfl).2.1

/-- C21: the specification's invariant says that no rtpmap line names an id
that the m-line lacks. For the payload 111 with the feedback entry
`{type: "trr-int", value: "a=rtpmap:999 evil/90000"}` the m-line announces
`111` alone, yet the text holds a second rtpmap line, `a=rtpmap:999
evil/90000`: line 104 pushes the value of a `trr-int` entry verbatim as a line
of its own, the operator-precedence slip of C2. -/
theorem toMediaSDP_trrInt_injects_rtpmap :
    toMediaSDP injectedRtpmapContent
      = .ok ("m=audio 1 RTP/AVPF 111\r\nc=IN IP4 0.0.0.0\r\na=rtcp:1 IN IP4 0.0.0.0\r\n"
          ++ "a=sendrecv\r\na=mid:audio\r\na=rtpmap:111 opus/48000/2\r\n"
          ++ "a=rtpmap:999 evil/90000") := by
  rfl

end Tosdp
